import Mathlib

/-!
# Zootronian Encrypted Messaging: handshake and server embedding

A shallow embedding of `src/main/zem.h` and `src/main/zem.cc`.

* Fixed-size `unsigned char` arrays are lists of octets carrying their length.
* The abstract classes `Socket` and `ServerSocket` are records of operations
  over an implementation state; a throwing call returns `Except.error`
  together with the state it leaves.
* The libsodium entry points used by the constructor are a record of
  operations over an environment (randomness, available memory).
* `Endpoint.Endpoint` threads socket and environment through the statements
  of the C++ constructor in source order and returns, with the result, the
  socket and the environment as the constructor left them.
* What the constructor did to its collaborators is observed from outside:
  `Socket.recorded` and `Sodium.recorded` wrap any transport and any
  primitives so that they keep a record of the calls made on them.
-/

set_option autoImplicit false
set_option linter.dupNamespace false

namespace zem

/-! ## Octets, strings, arrays -/

/-- One `unsigned char`. -/
abbrev Byte := Fin 256

/-- Contents of a `std::string`: its chars, `size()` is the list length. -/
abbrev CppString := List Byte

/-- Contents of a `std::array<unsigned char, n>`. -/
abbrev Bytes (n : Nat) := { l : List Byte // l.length = n }

/-! ## libsodium constants (values of the macros in `sodium.h`) -/

/-- Value of `crypto_pwhash_SALTBYTES`. -/
def crypto_pwhash_SALTBYTES : Nat := 16

/-- Value of `crypto_pwhash_OPSLIMIT_INTERACTIVE`. -/
def crypto_pwhash_OPSLIMIT_INTERACTIVE : Nat := 2

/-- Value of `crypto_pwhash_MEMLIMIT_INTERACTIVE`. -/
def crypto_pwhash_MEMLIMIT_INTERACTIVE : Nat := 67108864

/-- Value of `crypto_pwhash_ALG_DEFAULT` (Argon2id, version 1.3). -/
def crypto_pwhash_ALG_DEFAULT : Nat := 2

/-- Value of `crypto_secretstream_xchacha20poly1305_KEYBYTES`. -/
def crypto_secretstream_xchacha20poly1305_KEYBYTES : Nat := 32

/-- Value of `crypto_secretstream_xchacha20poly1305_HEADERBYTES`. -/
def crypto_secretstream_xchacha20poly1305_HEADERBYTES : Nat := 24

/-- Value of `crypto_secretstream_xchacha20poly1305_ABYTES` (`1U + 16U`). -/
def crypto_secretstream_xchacha20poly1305_ABYTES : Nat := 17

/-- Value of `sizeof(uint64_t)`. -/
def sizeof_uint64_t : Nat := 8

/-! ## 64-bit unsigned arithmetic -/

/-- Subtraction of `uint64_t` values: the result is reduced modulo `2^64`. -/
def sub64 (a b : Nat) : Nat := (a % 2 ^ 64 + 2 ^ 64 - b % 2 ^ 64) % 2 ^ 64

/-- Constant `Endpoint::PACKET_SIZE` (zem.h line 147). -/
def Endpoint.PACKET_SIZE : Nat := 4096

/-- Constant `Endpoint::BUFFER_SIZE` (zem.h lines 148-150):
`PACKET_SIZE - ABYTES - sizeof(uint64_t)`, left to right, in `uint64_t`. -/
def Endpoint.BUFFER_SIZE : Nat :=
  sub64 (sub64 Endpoint.PACKET_SIZE crypto_secretstream_xchacha20poly1305_ABYTES)
    sizeof_uint64_t

/-! ## Exceptions -/

/-- Class `SocketException` (zem.h lines 30-42): abstract, only `what()`. -/
structure SocketException where
  what : String
  deriving DecidableEq, Repr

/-- Class `CryptoException` (zem.h lines 80-95, zem.cc lines 29-31). -/
structure CryptoException where
  message : String
  deriving DecidableEq, Repr

/-- Member `CryptoException::what()` (zem.cc line 31). -/
def CryptoException.what (e : CryptoException) : String := e.message

/-- What a call can throw: an exception of the transport, a
`std::runtime_error`, or a `CryptoException`. -/
inductive Thrown where
  | socketException (e : SocketException)
  | runtime_error (what : String)
  | cryptoException (e : CryptoException)
  deriving DecidableEq, Repr

/-! ## External collaborators -/

/-- Abstract class `Socket` (zem.h lines 47-60) over an implementation state.
`send(source, length)` is given the `length` octets at `source`;
`recv(destination, length)` fills `length` octets. Either may throw; the
second component is the socket as the call leaves it. -/
structure Socket (σ : Type) where
  send : σ → List Byte → Except SocketException Unit × σ
  recv : σ → (length : Nat) → Except SocketException (Bytes length) × σ

/-- Abstract class `ServerSocket` (zem.h lines 66-78): `accept()` yields a
fresh `Socket` and may throw. -/
structure ServerSocket (L σ : Type) where
  accept : L → Except SocketException σ × L

/-- The libsodium functions called by `Endpoint::Endpoint`, over an
environment `ρ` (random source, memory available to the hash) and the type
`St` of `crypto_secretstream_xchacha20poly1305_state`.

* `crypto_pwhash` returns `none` for a non-zero return code.
* `init_push` draws the header at random; its return code is ignored by the
  caller.
* `init_pull` reads only its two arguments; `none` is a non-zero return code. -/
structure Sodium (ρ St : Type) where
  randombytes_buf : ρ → (size : Nat) → Bytes size × ρ
  crypto_pwhash : ρ → (outlen : Nat) → (passwd : CppString) → (passwdlen : Nat) →
    (salt : Bytes crypto_pwhash_SALTBYTES) → (opslimit memlimit alg : Nat) →
    Option (Bytes outlen) × ρ
  crypto_secretstream_xchacha20poly1305_init_push :
    ρ → Bytes crypto_secretstream_xchacha20poly1305_KEYBYTES →
    (St × Bytes crypto_secretstream_xchacha20poly1305_HEADERBYTES) × ρ
  crypto_secretstream_xchacha20poly1305_init_pull :
    Bytes crypto_secretstream_xchacha20poly1305_HEADERBYTES →
    Bytes crypto_secretstream_xchacha20poly1305_KEYBYTES → Option St

/-- Result of running a throwing computation on a transport: the value or
the exception, the transport as the computation left it, and the environment
left behind. -/
structure Outcome (σ ρ α : Type) where
  result : Except Thrown α
  socket : σ
  env : ρ

/-! ## Endpoint -/

/-- Data members of class `Endpoint` (zem.h lines 152-156). -/
structure Endpoint (σ St : Type) where
  socket : σ
  sendState : St
  sendBuffer : List Byte
  recvState : St
  recvBuffer : List Byte

/-- Constructor `Endpoint::Endpoint(password_, socket_)` (zem.cc lines 33-76).
The two `reserve` calls leave both buffers empty. -/
def Endpoint.Endpoint {σ ρ St : Type} (sock : Socket σ) (na : Sodium ρ St)
    (password_ : CppString) (socket_ : σ) (env : ρ) :
    Outcome σ ρ (zem.Endpoint σ St) :=
  -- randombytes_buf(sendSalt.data(), sendSalt.size());
  let r := na.randombytes_buf env crypto_pwhash_SALTBYTES
  let sendSalt := r.1
  -- socket->send(sendSalt.data(), sendSalt.size());
  let a := sock.send socket_ sendSalt.val
  match a.1 with
  | .error e => ⟨.error (.socketException e), a.2, r.2⟩
  | .ok _ =>
  -- if (crypto_pwhash(sendKey.data(), sendKey.size(), password_.c_str(), ...) != 0)
  let h := na.crypto_pwhash r.2 crypto_secretstream_xchacha20poly1305_KEYBYTES
    password_ password_.length sendSalt crypto_pwhash_OPSLIMIT_INTERACTIVE
    crypto_pwhash_MEMLIMIT_INTERACTIVE crypto_pwhash_ALG_DEFAULT
  match h.1 with
  | none => ⟨.error (.runtime_error "crypto_pwhash ran out of memory"), a.2, h.2⟩
  | some sendKey =>
  -- crypto_secretstream_xchacha20poly1305_init_push(&sendState, sendHeader.data(), sendKey.data());
  let p := na.crypto_secretstream_xchacha20poly1305_init_push h.2 sendKey
  let sendState := p.1.1
  let sendHeader := p.1.2
  -- socket->send(sendHeader.data(), sendHeader.size());
  let b := sock.send a.2 sendHeader.val
  match b.1 with
  | .error e => ⟨.error (.socketException e), b.2, p.2⟩
  | .ok _ =>
  -- socket->recv(recvSalt.data(), recvSalt.size());
  let c := sock.recv b.2 crypto_pwhash_SALTBYTES
  match c.1 with
  | .error e => ⟨.error (.socketException e), c.2, p.2⟩
  | .ok recvSalt =>
  -- if (crypto_pwhash(recvKey.data(), recvKey.size(), password_.c_str(), ...) != 0)
  let g := na.crypto_pwhash p.2 crypto_secretstream_xchacha20poly1305_KEYBYTES
    password_ password_.length recvSalt crypto_pwhash_OPSLIMIT_INTERACTIVE
    crypto_pwhash_MEMLIMIT_INTERACTIVE crypto_pwhash_ALG_DEFAULT
  match g.1 with
  | none => ⟨.error (.runtime_error "crypto_pwhash ran out of memory"), c.2, g.2⟩
  | some recvKey =>
  -- socket->recv(recvHeader.data(), recvHeader.size());
  let d := sock.recv c.2 crypto_secretstream_xchacha20poly1305_HEADERBYTES
  match d.1 with
  | .error e => ⟨.error (.socketException e), d.2, g.2⟩
  | .ok recvHeader =>
  -- if (crypto_secretstream_xchacha20poly1305_init_pull(&recvState, ...) != 0)
  match na.crypto_secretstream_xchacha20poly1305_init_pull recvHeader recvKey with
  | none => ⟨.error (.cryptoException ⟨"invalid password"⟩), d.2, g.2⟩
  | some recvState =>
    ⟨.ok { socket := d.2, sendState := sendState, sendBuffer := [],
           recvState := recvState, recvBuffer := [] }, d.2, g.2⟩

/-! ## Server -/

/-- Objects of type `std::string` that live in the caller, by address. -/
abbrev Strings := Nat → CppString

/-- Data members of class `Server` (zem.h lines 177-178). The member
`std::string const &password` is a reference: it holds the address of the
string the constructor was given, not a copy of its contents. -/
structure Server (L : Type) where
  password : Nat
  socket : L

/-- Constructor `Server::Server(password_, socket_)` (zem.cc lines 78-80):
binds the reference member to the argument and takes over the listener. -/
def Server.Server {L : Type} (password_ : Nat) (socket_ : L) : zem.Server L :=
  { password := password_, socket := socket_ }

/-- Member `Server::accept()` (zem.cc line 82):
`return Endpoint(password, socket->accept());`. The password is read through
the reference, in the memory as it is at the time of the call. The outcome
carries the accepted transport as the constructor left it, and none when the
listener threw. -/
def Server.accept {L σ ρ St : Type} (lis : ServerSocket L σ) (sock : Socket σ)
    (na : Sodium ρ St) (mem : Strings) (self : zem.Server L) (env : ρ) :
    Outcome (Option σ) ρ (Endpoint σ St) × zem.Server L :=
  let a := lis.accept self.socket
  match a.1 with
  | .error e => (⟨.error (.socketException e), none, env⟩, { self with socket := a.2 })
  | .ok t =>
    let o := Endpoint.Endpoint sock na (mem self.password) t env
    (⟨o.result, some o.socket, o.env⟩, { self with socket := a.2 })

/-! ## Typed reads and writes declared on Endpoint -/

/-- Parameter types of the `operator<<` and `operator>>` overloads of
`Endpoint` (zem.h lines 112-142). -/
inductive ScalarKind where
  | uint8_t | uint16_t | uint32_t | uint64_t
  | int8_t | int16_t | int32_t | int64_t
  | bool | float | double | char
  deriving DecidableEq, Repr

/-- Overloads `Endpoint &operator<<(T)` in declaration order
(zem.h lines 112-127). -/
def Endpoint.writeOverloads : List ScalarKind :=
  [.uint8_t, .uint16_t, .uint32_t, .uint64_t,
   .int8_t, .int16_t, .int32_t, .int64_t,
   .bool,
   .float, .double,
   .char]

/-- Overloads `Endpoint &operator>>(T &)` in declaration order
(zem.h lines 129-142). -/
def Endpoint.readOverloads : List ScalarKind :=
  [.uint8_t, .uint16_t, .uint32_t, .uint64_t,
   .int8_t, .int16_t, .int32_t, .int64_t,
   .float, .double,
   .char]

/-! ## Records kept by the collaborators -/

/-- One call received by a transport, with what came back. -/
inductive SocketCall where
  | send (source : List Byte) (ok : Bool)
  | recv (length : Nat) (got : Option (List Byte))
  deriving DecidableEq, Repr

/-- One call received by libsodium, with what came back. -/
inductive SodiumCall where
  | randombytes_buf (size : Nat) (out : List Byte)
  | crypto_pwhash (outlen : Nat) (passwd : CppString) (passwdlen : Nat)
      (salt : List Byte) (opslimit memlimit alg : Nat) (out : Option (List Byte))
  | init_push (key header : List Byte)
  deriving DecidableEq, Repr

/-- Whether a call returned rather than threw. -/
def returned {ε α : Type} : Except ε α → Bool
  | .ok _ => true
  | .error _ => false

/-- What a `recv` call delivered, if it returned. -/
def delivered {ε : Type} {n : Nat} : Except ε (Bytes n) → Option (List Byte)
  | .ok x => some x.val
  | .error _ => none

/-- Any transport, made to keep a record of the calls it receives: each
call is passed to the transport unchanged and appended, with its outcome, to
the record. -/
def Socket.recorded {σ : Type} (sock : Socket σ) : Socket (σ × List SocketCall) where
  send s source :=
    let r := sock.send s.1 source
    (r.1, (r.2, s.2 ++ [.send source (returned r.1)]))
  recv s length :=
    let r := sock.recv s.1 length
    (r.1, (r.2, s.2 ++ [.recv length (delivered r.1)]))

/-- Any primitives, made to keep a record of the calls they receive that
touch the environment. `init_pull` is passed through. -/
def Sodium.recorded {ρ St : Type} (na : Sodium ρ St) : Sodium (ρ × List SodiumCall) St where
  randombytes_buf e size :=
    let r := na.randombytes_buf e.1 size
    (r.1, (r.2, e.2 ++ [.randombytes_buf size r.1.val]))
  crypto_pwhash e outlen passwd passwdlen salt opslimit memlimit alg :=
    let r := na.crypto_pwhash e.1 outlen passwd passwdlen salt opslimit memlimit alg
    (r.1, (r.2, e.2 ++
      [.crypto_pwhash outlen passwd passwdlen salt.val opslimit memlimit alg
        (r.1.map Subtype.val)]))
  crypto_secretstream_xchacha20poly1305_init_push e key :=
    let r := na.crypto_secretstream_xchacha20poly1305_init_push e.1 key
    (r.1, (r.2, e.2 ++ [.init_push key.val r.1.2.val]))
  crypto_secretstream_xchacha20poly1305_init_pull :=
    na.crypto_secretstream_xchacha20poly1305_init_pull

/-- An Endpoint over a recording transport, seen without the record. -/
def Endpoint.forget {σ St : Type} (ep : zem.Endpoint (σ × List SocketCall) St) :
    zem.Endpoint σ St :=
  { socket := ep.socket.1, sendState := ep.sendState, sendBuffer := ep.sendBuffer,
    recvState := ep.recvState, recvBuffer := ep.recvBuffer }

/-- A recorded transport call that threw. -/
def SocketCall.failed : SocketCall → Bool
  | .send _ false => true
  | .recv _ none => true
  | _ => false

/-- A recorded call of the password hash. -/
def SodiumCall.isPwhash : SodiumCall → Bool
  | .crypto_pwhash _ _ _ _ _ _ _ _ => true
  | _ => false

/-- A recorded password hash call that returned non-zero. -/
def SodiumCall.pwhashFailed : SodiumCall → Bool
  | .crypto_pwhash _ _ _ _ _ _ _ none => true
  | _ => false

/-- The octets a transport was handed by the `send` calls that returned,
in order. -/
def sentBytes : List SocketCall → List Byte
  | [] => []
  | .send source true :: t => source ++ sentBytes t
  | _ :: t => sentBytes t

/-- The octets a transport delivered by the `recv` calls that returned, in
order. -/
def recvBytes : List SocketCall → List Byte
  | [] => []
  | .recv _ (some got) :: t => got ++ recvBytes t
  | _ :: t => recvBytes t

/-- The record of a password hash call with the arguments the constructor
passes: key length, password and its size, interactive cost limits, default
algorithm. -/
def hashCall (password : CppString) (salt : List Byte) (out : Option (List Byte)) :
    SodiumCall :=
  .crypto_pwhash crypto_secretstream_xchacha20poly1305_KEYBYTES password password.length salt
    crypto_pwhash_OPSLIMIT_INTERACTIVE crypto_pwhash_MEMLIMIT_INTERACTIVE
    crypto_pwhash_ALG_DEFAULT out

/-- The transport record of a complete handshake: own salt sent, own header
sent, peer salt received, peer header received. -/
def handshakeSocketRecord (sendSalt sendHeader recvSalt recvHeader : List Byte) :
    List SocketCall :=
  [ .send sendSalt true,
    .send sendHeader true,
    .recv crypto_pwhash_SALTBYTES (some recvSalt),
    .recv crypto_secretstream_xchacha20poly1305_HEADERBYTES (some recvHeader) ]

/-- The libsodium record of a handshake in which both hashes succeeded: salt
drawn, send key hashed from it, send state initialised, receive key hashed
from the peer salt. -/
def handshakeSodiumRecord (password : CppString)
    (sendSalt sendKey sendHeader recvSalt recvKey : List Byte) : List SodiumCall :=
  [ .randombytes_buf crypto_pwhash_SALTBYTES sendSalt,
    hashCall password sendSalt (some sendKey),
    .init_push sendKey sendHeader,
    hashCall password recvSalt (some recvKey) ]

/-! ## An in-memory transport and toy primitives for concrete runs -/

/-- One end of an in-memory reliable ordered byte channel: the octets the
peer writes on it, not yet read, and the octets written so far. -/
structure Loopback where
  inbound : List Byte
  outbound : List Byte
  deriving DecidableEq, Repr

/-- Socket over `Loopback`: `send` appends to `outbound`; `recv` takes the
next `length` octets of `inbound` and throws when the peer wrote fewer and
is gone. -/
def Loopback.socket : Socket Loopback where
  send s source := (.ok (), { s with outbound := s.outbound ++ source })
  recv s length :=
    if h : length ≤ s.inbound.length then
      (.ok ⟨s.inbound.take length, by simp [h]⟩, { s with inbound := s.inbound.drop length })
    else (.error ⟨"connection closed"⟩, s)

/-- A listener holding the connections that are waiting: `accept()` hands
out the next one and throws when none is left. -/
def queueListener {σ : Type} : ServerSocket (List σ) σ where
  accept l :=
    match l with
    | [] => (.error ⟨"no pending connection"⟩, [])
    | t :: rest => (.ok t, rest)

/-- Environment of the toy primitives: a counter feeding the random source
and the number of hash calls that still find memory. -/
structure ToyEnv where
  seed : Nat
  hashes : Nat
  deriving DecidableEq, Repr

/-- Octet `n mod 256`. -/
def toByte (n : Nat) : Byte := ⟨n % 256, Nat.mod_lt _ (by decide)⟩

/-- Sum of the octets of a list. -/
def byteSum (l : List Byte) : Nat := (l.map Fin.val).sum

/-- Toy primitives. Random octets repeat the counter; the hash fills the key
with the sum of password and salt octets and fails when `hashes` is used up;
`init_push` puts the first key octet, then the counter, in the header;
`init_pull` with `checks` rejects a header whose first octet is not the first
key octet, and without `checks` returns zero on every input, as libsodium's
`crypto_secretstream_xchacha20poly1305_init_pull` does. -/
def toySodium (checks : Bool) : Sodium ToyEnv (List Byte) where
  randombytes_buf e size :=
    (⟨List.replicate size (toByte e.seed), by simp⟩, { e with seed := e.seed + 1 })
  crypto_pwhash e outlen passwd passwdlen salt _ _ _ :=
    match e.hashes with
    | 0 => (none, e)
    | n + 1 =>
      (some ⟨List.replicate outlen (toByte (byteSum (passwd.take passwdlen) + byteSum salt.val)),
        by simp⟩, { e with hashes := n })
  crypto_secretstream_xchacha20poly1305_init_push e key :=
    ((key.val,
      ⟨key.val.head?.getD 0 ::
        List.replicate (crypto_secretstream_xchacha20poly1305_HEADERBYTES - 1) (toByte e.seed),
       by simp [crypto_secretstream_xchacha20poly1305_HEADERBYTES]⟩),
     { e with seed := e.seed + 1 })
  crypto_secretstream_xchacha20poly1305_init_pull header key :=
    if checks && header.val.head? != key.val.head? then none else some key.val

/-- The caller's memory after it assigns `v` to its string at address `a`. -/
def Strings.assign (mem : Strings) (a : Nat) (v : CppString) : Strings :=
  fun b => if b = a then v else mem b

/-- The password "p". -/
def passwordP : CppString := [112]

/-- The password "q". -/
def passwordQ : CppString := [113]

/-- A caller's memory in which every string holds "p". -/
def memoryP : Strings := fun _ => passwordP

/-- What a peer running the toy primitives from seed 7 with password "p"
writes during its handshake: its salt, then its header. -/
def wireFromSeed7P : List Byte :=
  List.replicate 16 7 ++ (224 :: List.replicate 23 8)

/-- What a peer running the toy primitives from seed 1 with password "p"
writes during its handshake: its salt, then its header. -/
def wireFromSeed1P : List Byte :=
  List.replicate 16 1 ++ (128 :: List.replicate 23 2)

/-- What a peer running the toy primitives from seed 7 with password "q"
writes during its handshake: its salt, then its header. -/
def wireFromSeed7Q : List Byte :=
  List.replicate 16 7 ++ (225 :: List.replicate 23 8)

/-- The recorded run of the constructor over the in-memory transport with
the toy primitives: password, octets waiting to be read, seed, and number of
hash calls that find memory. -/
def toyRun (checks : Bool) (password : CppString) (inbound : List Byte) (seed hashes : Nat) :
    Outcome (Loopback × List SocketCall) (ToyEnv × List SodiumCall)
      (Endpoint (Loopback × List SocketCall) (List Byte)) :=
  Endpoint.Endpoint Loopback.socket.recorded (toySodium checks).recorded password
    (⟨inbound, []⟩, []) (⟨seed, hashes⟩, [])

/-! ## Contracts of the primitives -/

/-- Contract of the password hash: whenever two calls with the same
arguments both succeed, in whatever environments, they give the same key. -/
def Sodium.PwhashDeterministic {ρ St : Type} (na : Sodium ρ St) : Prop :=
  ∀ (e e' : ρ) (outlen : Nat) (passwd : CppString) (passwdlen : Nat)
    (salt : Bytes crypto_pwhash_SALTBYTES) (opslimit memlimit alg : Nat) (k k' : Bytes outlen),
    (na.crypto_pwhash e outlen passwd passwdlen salt opslimit memlimit alg).1 = some k →
    (na.crypto_pwhash e' outlen passwd passwdlen salt opslimit memlimit alg).1 = some k' →
    k = k'

/-- Contract of the stream initialisation: `init_pull` accepts the header
that `init_push` produced under the same key. -/
def Sodium.AcceptsMatching {ρ St : Type} (na : Sodium ρ St) : Prop :=
  ∀ (e : ρ) (key : Bytes crypto_secretstream_xchacha20poly1305_KEYBYTES),
    (na.crypto_secretstream_xchacha20poly1305_init_pull
      (na.crypto_secretstream_xchacha20poly1305_init_push e key).1.2 key).isSome = true

/-! ## The exits of the constructor -/

section exits
variable {σ ρ St : Type}

/-- Every way `Endpoint::Endpoint` can end, in source order. The run is
observed through a recording transport and recording primitives; at each
exit: the condition on what the transport and the primitives returned, and
the whole outcome, that is the result, the transport as left with its
record, and the environment as left with its record. -/
theorem Endpoint.Endpoint_exits (sock : Socket σ) (na : Sodium ρ St)
    (pw : CppString) (s : σ) (env : ρ) :
    let o := Endpoint.Endpoint sock.recorded na.recorded pw (s, []) (env, [])
    let r := na.randombytes_buf env crypto_pwhash_SALTBYTES
    let a := sock.send s r.1.val
    let h := na.crypto_pwhash r.2 crypto_secretstream_xchacha20poly1305_KEYBYTES
      pw pw.length r.1 crypto_pwhash_OPSLIMIT_INTERACTIVE
      crypto_pwhash_MEMLIMIT_INTERACTIVE crypto_pwhash_ALG_DEFAULT
    let rb := SodiumCall.randombytes_buf crypto_pwhash_SALTBYTES r.1.val
    (∃ e, a.1 = .error e ∧
      o = ⟨.error (.socketException e), (a.2, [.send r.1.val false]), (r.2, [rb])⟩) ∨
    (a.1 = .ok () ∧
      ((h.1 = none ∧
        o = ⟨.error (.runtime_error "crypto_pwhash ran out of memory"),
              (a.2, [.send r.1.val true]), (h.2, [rb, hashCall pw r.1.val none])⟩) ∨
      (∃ sendKey, h.1 = some sendKey ∧
        let p := na.crypto_secretstream_xchacha20poly1305_init_push h.2 sendKey
        let b := sock.send a.2 p.1.2.val
        let pre := [rb, hashCall pw r.1.val (some sendKey.val),
          .init_push sendKey.val p.1.2.val]
        ((∃ e, b.1 = .error e ∧
          o = ⟨.error (.socketException e),
                (b.2, [.send r.1.val true, .send p.1.2.val false]), (p.2, pre)⟩) ∨
        (b.1 = .ok () ∧
          let c := sock.recv b.2 crypto_pwhash_SALTBYTES
          ((∃ e, c.1 = .error e ∧
            o = ⟨.error (.socketException e),
                  (c.2, [.send r.1.val true, .send p.1.2.val true,
                    .recv crypto_pwhash_SALTBYTES none]), (p.2, pre)⟩) ∨
          (∃ recvSalt, c.1 = .ok recvSalt ∧
            let g := na.crypto_pwhash p.2 crypto_secretstream_xchacha20poly1305_KEYBYTES
              pw pw.length recvSalt crypto_pwhash_OPSLIMIT_INTERACTIVE
              crypto_pwhash_MEMLIMIT_INTERACTIVE crypto_pwhash_ALG_DEFAULT
            ((g.1 = none ∧
              o = ⟨.error (.runtime_error "crypto_pwhash ran out of memory"),
                    (c.2, [.send r.1.val true, .send p.1.2.val true,
                      .recv crypto_pwhash_SALTBYTES (some recvSalt.val)]),
                    (g.2, pre ++ [hashCall pw recvSalt.val none])⟩) ∨
            (∃ recvKey, g.1 = some recvKey ∧
              let d := sock.recv c.2 crypto_secretstream_xchacha20poly1305_HEADERBYTES
              ((∃ e, d.1 = .error e ∧
                o = ⟨.error (.socketException e),
                      (d.2, [.send r.1.val true, .send p.1.2.val true,
                        .recv crypto_pwhash_SALTBYTES (some recvSalt.val),
                        .recv crypto_secretstream_xchacha20poly1305_HEADERBYTES none]),
                      (g.2, handshakeSodiumRecord pw r.1.val sendKey.val p.1.2.val
                        recvSalt.val recvKey.val)⟩) ∨
              (∃ recvHeader, d.1 = .ok recvHeader ∧
                let fin : (σ × List SocketCall) := (d.2, handshakeSocketRecord r.1.val p.1.2.val
                  recvSalt.val recvHeader.val)
                let fenv : (ρ × List SodiumCall) := (g.2, handshakeSodiumRecord pw r.1.val
                  sendKey.val p.1.2.val recvSalt.val recvKey.val)
                ((na.crypto_secretstream_xchacha20poly1305_init_pull recvHeader recvKey = none ∧
                  o = ⟨.error (.cryptoException ⟨"invalid password"⟩), fin, fenv⟩) ∨
                (∃ st,
                  na.crypto_secretstream_xchacha20poly1305_init_pull recvHeader recvKey
                    = some st ∧
                  o = ⟨.ok { socket := fin, sendState := p.1.1, sendBuffer := [],
                             recvState := st, recvBuffer := [] }, fin, fenv⟩))))))))))))) := by
  simp only [Endpoint.Endpoint, Socket.recorded, Sodium.recorded, handshakeSocketRecord,
    handshakeSodiumRecord, hashCall, List.nil_append]
  generalize na.randombytes_buf env crypto_pwhash_SALTBYTES = r
  obtain ⟨salt, env1⟩ := r
  simp only
  generalize sock.send s salt.val = a
  obtain ⟨a1, s1⟩ := a
  rcases a1 with e | u
  · simp [returned]
  right
  refine ⟨rfl, ?_⟩
  simp only
  generalize na.crypto_pwhash env1 crypto_secretstream_xchacha20poly1305_KEYBYTES pw pw.length
    salt crypto_pwhash_OPSLIMIT_INTERACTIVE crypto_pwhash_MEMLIMIT_INTERACTIVE
    crypto_pwhash_ALG_DEFAULT = h
  obtain ⟨_ | sendKey, env2⟩ := h
  · simp [returned]
  right
  refine ⟨sendKey, rfl, ?_⟩
  simp only
  generalize na.crypto_secretstream_xchacha20poly1305_init_push env2 sendKey = p
  obtain ⟨⟨sendState, hdr⟩, env3⟩ := p
  simp only
  generalize sock.send s1 hdr.val = b
  obtain ⟨b1, s2⟩ := b
  rcases b1 with e | u
  · simp [returned]
  right
  refine ⟨rfl, ?_⟩
  simp only
  generalize sock.recv s2 crypto_pwhash_SALTBYTES = c
  obtain ⟨c1, s3⟩ := c
  rcases c1 with e | recvSalt
  · simp [returned, delivered]
  right
  refine ⟨recvSalt, rfl, ?_⟩
  simp only
  generalize na.crypto_pwhash env3 crypto_secretstream_xchacha20poly1305_KEYBYTES pw pw.length
    recvSalt crypto_pwhash_OPSLIMIT_INTERACTIVE crypto_pwhash_MEMLIMIT_INTERACTIVE
    crypto_pwhash_ALG_DEFAULT = g
  obtain ⟨_ | recvKey, env4⟩ := g
  · simp [returned, delivered]
  right
  refine ⟨recvKey, rfl, ?_⟩
  simp only
  generalize sock.recv s3 crypto_secretstream_xchacha20poly1305_HEADERBYTES = d
  obtain ⟨d1, s4⟩ := d
  rcases d1 with e | recvHeader
  · simp [returned, delivered]
  right
  refine ⟨recvHeader, rfl, ?_⟩
  simp only
  rcases na.crypto_secretstream_xchacha20poly1305_init_pull recvHeader recvKey with _ | st
  · simp [returned, delivered]
  · simp [returned, delivered]

/-- Recording changes nothing: the recorded run ends as the plain run does,
with the same result, the same transport and the same environment. -/
theorem Endpoint.Endpoint_recorded (sock : Socket σ) (na : Sodium ρ St)
    (pw : CppString) (s : σ) (env : ρ) :
    let o := Endpoint.Endpoint sock.recorded na.recorded pw (s, []) (env, [])
    let o' := Endpoint.Endpoint sock na pw s env
    o.socket.1 = o'.socket ∧ o.env.1 = o'.env ∧
    o.result.map Endpoint.forget = o'.result := by
  simp only [Endpoint.Endpoint, Socket.recorded, Sodium.recorded]
  generalize na.randombytes_buf env crypto_pwhash_SALTBYTES = r
  obtain ⟨salt, env1⟩ := r
  simp only
  generalize sock.send s salt.val = a
  obtain ⟨a1, s1⟩ := a
  rcases a1 with e | u
  · exact ⟨rfl, rfl, rfl⟩
  simp only
  generalize na.crypto_pwhash env1 crypto_secretstream_xchacha20poly1305_KEYBYTES pw pw.length
    salt crypto_pwhash_OPSLIMIT_INTERACTIVE crypto_pwhash_MEMLIMIT_INTERACTIVE
    crypto_pwhash_ALG_DEFAULT = h
  obtain ⟨_ | sendKey, env2⟩ := h
  · exact ⟨rfl, rfl, rfl⟩
  simp only
  generalize na.crypto_secretstream_xchacha20poly1305_init_push env2 sendKey = p
  obtain ⟨⟨sendState, hdr⟩, env3⟩ := p
  simp only
  generalize sock.send s1 hdr.val = b
  obtain ⟨b1, s2⟩ := b
  rcases b1 with e | u
  · exact ⟨rfl, rfl, rfl⟩
  simp only
  generalize sock.recv s2 crypto_pwhash_SALTBYTES = c
  obtain ⟨c1, s3⟩ := c
  rcases c1 with e | recvSalt
  · exact ⟨rfl, rfl, rfl⟩
  simp only
  generalize na.crypto_pwhash env3 crypto_secretstream_xchacha20poly1305_KEYBYTES pw pw.length
    recvSalt crypto_pwhash_OPSLIMIT_INTERACTIVE crypto_pwhash_MEMLIMIT_INTERACTIVE
    crypto_pwhash_ALG_DEFAULT = g
  obtain ⟨_ | recvKey, env4⟩ := g
  · exact ⟨rfl, rfl, rfl⟩
  simp only
  generalize sock.recv s3 crypto_secretstream_xchacha20poly1305_HEADERBYTES = d
  obtain ⟨d1, s4⟩ := d
  rcases d1 with e | recvHeader
  · exact ⟨rfl, rfl, rfl⟩
  simp only
  rcases na.crypto_secretstream_xchacha20poly1305_init_pull recvHeader recvKey with _ | st
  · exact ⟨rfl, rfl, rfl⟩
  · exact ⟨rfl, rfl, rfl⟩

/-- A run in which, by the records of the transport and of the primitives,
no transport call threw and no hash failed, went through all nine steps: what
each call returned, the transport and environment as left with their
complete records, and the result, decided by `init_pull` alone. -/
theorem Endpoint.Endpoint_complete (sock : Socket σ) (na : Sodium ρ St)
    (pw : CppString) (s : σ) (env : ρ)
    (hT : ∀ c ∈ (Endpoint.Endpoint sock.recorded na.recorded pw (s, []) (env, [])).socket.2, c.failed = false)
    (hK : ∀ c ∈ (Endpoint.Endpoint sock.recorded na.recorded pw (s, []) (env, [])).env.2, c.pwhashFailed = false) :
    let o := Endpoint.Endpoint sock.recorded na.recorded pw (s, []) (env, [])
    let r := na.randombytes_buf env crypto_pwhash_SALTBYTES
    let a := sock.send s r.1.val
    let h := na.crypto_pwhash r.2 crypto_secretstream_xchacha20poly1305_KEYBYTES
      pw (List.length pw) r.1 crypto_pwhash_OPSLIMIT_INTERACTIVE
      crypto_pwhash_MEMLIMIT_INTERACTIVE crypto_pwhash_ALG_DEFAULT
    a.1 = .ok () ∧ ∃ sendKey, h.1 = some sendKey ∧
      let p := na.crypto_secretstream_xchacha20poly1305_init_push h.2 sendKey
      let b := sock.send a.2 p.1.2.val
      let c := sock.recv b.2 crypto_pwhash_SALTBYTES
      b.1 = .ok () ∧ ∃ recvSalt, c.1 = .ok recvSalt ∧
        let g := na.crypto_pwhash p.2 crypto_secretstream_xchacha20poly1305_KEYBYTES
          pw (List.length pw) recvSalt crypto_pwhash_OPSLIMIT_INTERACTIVE
          crypto_pwhash_MEMLIMIT_INTERACTIVE crypto_pwhash_ALG_DEFAULT
        let d := sock.recv c.2 crypto_secretstream_xchacha20poly1305_HEADERBYTES
        ∃ recvKey, g.1 = some recvKey ∧ ∃ recvHeader, d.1 = .ok recvHeader ∧
          o.socket = (d.2, handshakeSocketRecord r.1.val p.1.2.val recvSalt.val
            recvHeader.val) ∧
          o.env = (g.2, handshakeSodiumRecord pw r.1.val sendKey.val p.1.2.val recvSalt.val
            recvKey.val) ∧
          (na.crypto_secretstream_xchacha20poly1305_init_pull recvHeader recvKey = none →
            o.result = .error (.cryptoException ⟨"invalid password"⟩)) ∧
          (∀ st, na.crypto_secretstream_xchacha20poly1305_init_pull recvHeader recvKey
              = some st →
            o.result = .ok { socket := o.socket, sendState := p.1.1, sendBuffer := [],
                             recvState := st, recvBuffer := [] }) := by
  have hx := Endpoint.Endpoint_exits sock na pw s env
  simp only at hx
  intro o r a h
  rcases hx with ⟨e, -, ho⟩ | ⟨ha, hx⟩
  · rw [ho] at hT; simp [SocketCall.failed] at hT
  refine ⟨ha, ?_⟩
  rcases hx with ⟨-, ho⟩ | ⟨sendKey, hh, hx⟩
  · rw [ho] at hK; simp [SodiumCall.pwhashFailed, hashCall] at hK
  refine ⟨sendKey, hh, ?_⟩
  intro p b c
  rcases hx with ⟨e, -, ho⟩ | ⟨hb, hx⟩
  · rw [ho] at hT; simp [SocketCall.failed] at hT
  refine ⟨hb, ?_⟩
  rcases hx with ⟨e, -, ho⟩ | ⟨recvSalt, hc, hx⟩
  · rw [ho] at hT; simp [SocketCall.failed] at hT
  refine ⟨recvSalt, hc, ?_⟩
  intro g d
  rcases hx with ⟨-, ho⟩ | ⟨recvKey, hg, hx⟩
  · rw [ho] at hK; simp [SodiumCall.pwhashFailed, hashCall] at hK
  refine ⟨recvKey, hg, ?_⟩
  rcases hx with ⟨e, -, ho⟩ | ⟨recvHeader, hd, hx⟩
  · rw [ho] at hT; simp [SocketCall.failed] at hT
  refine ⟨recvHeader, hd, ?_⟩
  rcases hx with ⟨hp, ho⟩ | ⟨st, hp, ho⟩
  · have ho' : o = _ := ho
    refine ⟨by rw [ho'], by rw [ho'], fun _ => by rw [ho'], ?_⟩
    intro st hst
    rw [hp] at hst
    cases hst
  · have ho' : o = _ := ho
    refine ⟨by rw [ho'], by rw [ho'], ?_, ?_⟩
    · intro hn
      rw [hp] at hn
      cases hn
    · intro st2 hst
      rw [hp] at hst
      cases hst
      rw [ho']

/-- The toy hash keeps the determinism contract. -/
theorem toySodium_deterministic (checks : Bool) : (toySodium checks).PwhashDeterministic := by
  intro e e' outlen passwd passwdlen salt opslimit memlimit alg k k' h1 h2
  simp only [toySodium] at h1 h2
  split at h1
  · cases h1
  · split at h2
    · cases h2
    · cases h1
      cases h2
      rfl

/-- The toy `init_pull` accepts the header the toy `init_push` made under
the same key. -/
theorem toySodium_acceptsMatching (checks : Bool) : (toySodium checks).AcceptsMatching := by
  intro e key
  obtain ⟨k, hk⟩ := key
  cases k with
  | nil => simp [crypto_secretstream_xchacha20poly1305_KEYBYTES] at hk
  | cons a t => simp [toySodium]

end exits

/-! ## Claims -/

/-- C6. Buffer capacity arithmetic: `BUFFER_SIZE`, computed by two 64-bit
unsigned subtractions from `PACKET_SIZE = 4096`, the tag size 17 and the
8-octet length field, is the integer difference `4096 - 17 - 8 = 4071` (no
wrap-around), is positive, and `8 + BUFFER_SIZE + 17 = PACKET_SIZE`. -/
theorem buffer_size_arithmetic :
    Endpoint.PACKET_SIZE = 4096 ∧
    crypto_secretstream_xchacha20poly1305_ABYTES = 17 ∧
    sizeof_uint64_t = 8 ∧
    (Endpoint.BUFFER_SIZE : Int) =
      (Endpoint.PACKET_SIZE : Int) - (crypto_secretstream_xchacha20poly1305_ABYTES : Int)
        - (sizeof_uint64_t : Int) ∧
    Endpoint.BUFFER_SIZE = 4071 ∧
    0 < Endpoint.BUFFER_SIZE ∧
    sizeof_uint64_t + Endpoint.BUFFER_SIZE + crypto_secretstream_xchacha20poly1305_ABYTES
      = Endpoint.PACKET_SIZE := by
  decide

/-- C5 (the code misses a case). Among the scalar kinds with a write
operation on `Endpoint`, `bool` has `operator<<` but no `operator>>`: a
written boolean cannot be read back by the peer. Every other kind with a
write operation has the matching read operation. -/
theorem bool_write_has_no_read :
    ScalarKind.bool ∈ Endpoint.writeOverloads ∧
    ScalarKind.bool ∉ Endpoint.readOverloads ∧
    (∀ k ∈ Endpoint.writeOverloads, k ≠ ScalarKind.bool → k ∈ Endpoint.readOverloads) ∧
    ¬ (∀ k ∈ Endpoint.writeOverloads, k ∈ Endpoint.readOverloads) := by
  decide

/-- C2. Handshake wire order. The constructor is run on any transport made
to record the calls it receives. When, by that record and the record of the
primitives, no transport call threw and no hash failed, the transport
received exactly four calls, in this order: send of the salt that
`randombytes_buf` drew (16 octets), send of the header that `init_push`
produced under the key hashed from that salt (24 octets), recv of 16 octets,
recv of 24 octets; each returned, the transport is left as these four calls,
chained, leave it, and nothing else was sent or received. -/
theorem handshake_wire_order {σ ρ St : Type} (sock : Socket σ) (na : Sodium ρ St)
    (pw : CppString) (s : σ) (env : ρ)
    (hT : ∀ c ∈ (Endpoint.Endpoint sock.recorded na.recorded pw (s, []) (env, [])).socket.2, c.failed = false)
    (hK : ∀ c ∈ (Endpoint.Endpoint sock.recorded na.recorded pw (s, []) (env, [])).env.2, c.pwhashFailed = false) :
    let o := Endpoint.Endpoint sock.recorded na.recorded pw (s, []) (env, [])
    let r := na.randombytes_buf env crypto_pwhash_SALTBYTES
    let a := sock.send s r.1.val
    let h := na.crypto_pwhash r.2 crypto_secretstream_xchacha20poly1305_KEYBYTES
      pw (List.length pw) r.1 crypto_pwhash_OPSLIMIT_INTERACTIVE
      crypto_pwhash_MEMLIMIT_INTERACTIVE crypto_pwhash_ALG_DEFAULT
    ∃ sendKey, h.1 = some sendKey ∧
      let p := na.crypto_secretstream_xchacha20poly1305_init_push h.2 sendKey
      let b := sock.send a.2 p.1.2.val
      let c := sock.recv b.2 crypto_pwhash_SALTBYTES
      let d := sock.recv c.2 crypto_secretstream_xchacha20poly1305_HEADERBYTES
      ∃ recvSalt recvHeader,
        a.1 = .ok () ∧ b.1 = .ok () ∧ c.1 = .ok recvSalt ∧ d.1 = .ok recvHeader ∧
        o.socket = (d.2,
          [ .send r.1.val true,
            .send p.1.2.val true,
            .recv crypto_pwhash_SALTBYTES (some recvSalt.val),
            .recv crypto_secretstream_xchacha20poly1305_HEADERBYTES (some recvHeader.val) ]) ∧
        r.1.val.length = 16 ∧ p.1.2.val.length = 24 ∧
        recvSalt.val.length = 16 ∧ recvHeader.val.length = 24 ∧
        sentBytes o.socket.2 = r.1.val ++ p.1.2.val ∧
        recvBytes o.socket.2 = recvSalt.val ++ recvHeader.val := by
  obtain ⟨ha, sendKey, hh, hb, recvSalt, hc, recvKey, -, recvHeader, hd, hsock, -, -, -⟩ :=
    Endpoint.Endpoint_complete sock na pw s env hT hK
  refine ⟨sendKey, hh, recvSalt, recvHeader, ha, hb, hc, hd, hsock,
    (na.randombytes_buf env crypto_pwhash_SALTBYTES).1.property,
    (na.crypto_secretstream_xchacha20poly1305_init_push _ sendKey).1.2.property,
    recvSalt.property, recvHeader.property, ?_, ?_⟩
  · rw [hsock]; simp [handshakeSocketRecord, sentBytes]
  · rw [hsock]; simp [handshakeSocketRecord, recvBytes]

/-- Witness for C2: the constructor over the in-memory transport carrying a
peer's salt and header, with the toy primitives. -/
theorem handshake_wire_order_witness :
    (∀ c ∈ (Endpoint.Endpoint Loopback.socket.recorded (toySodium true).recorded passwordP ((Loopback.mk wireFromSeed7P []), []) ((ToyEnv.mk 1 2), [])).socket.2, c.failed = false) ∧
    (∀ c ∈ (Endpoint.Endpoint Loopback.socket.recorded (toySodium true).recorded passwordP ((Loopback.mk wireFromSeed7P []), []) ((ToyEnv.mk 1 2), [])).env.2, c.pwhashFailed = false) ∧
    (Endpoint.Endpoint Loopback.socket.recorded (toySodium true).recorded passwordP
      (Loopback.mk wireFromSeed7P [], []) (ToyEnv.mk 1 2, [])).socket.1.outbound
      = wireFromSeed1P ∧
    (
    let o := Endpoint.Endpoint Loopback.socket.recorded (toySodium true).recorded passwordP ((Loopback.mk wireFromSeed7P []), []) ((ToyEnv.mk 1 2), [])
    let r := (toySodium true).randombytes_buf (ToyEnv.mk 1 2) crypto_pwhash_SALTBYTES
    let a := Loopback.socket.send (Loopback.mk wireFromSeed7P []) r.1.val
    let h := (toySodium true).crypto_pwhash r.2 crypto_secretstream_xchacha20poly1305_KEYBYTES
      passwordP (List.length passwordP) r.1 crypto_pwhash_OPSLIMIT_INTERACTIVE
      crypto_pwhash_MEMLIMIT_INTERACTIVE crypto_pwhash_ALG_DEFAULT
    ∃ sendKey, h.1 = some sendKey ∧
      let p := (toySodium true).crypto_secretstream_xchacha20poly1305_init_push h.2 sendKey
      let b := Loopback.socket.send a.2 p.1.2.val
      let c := Loopback.socket.recv b.2 crypto_pwhash_SALTBYTES
      let d := Loopback.socket.recv c.2 crypto_secretstream_xchacha20poly1305_HEADERBYTES
      ∃ recvSalt recvHeader,
        a.1 = .ok () ∧ b.1 = .ok () ∧ c.1 = .ok recvSalt ∧ d.1 = .ok recvHeader ∧
        o.socket = (d.2,
          [ .send r.1.val true,
            .send p.1.2.val true,
            .recv crypto_pwhash_SALTBYTES (some recvSalt.val),
            .recv crypto_secretstream_xchacha20poly1305_HEADERBYTES (some recvHeader.val) ]) ∧
        r.1.val.length = 16 ∧ p.1.2.val.length = 24 ∧
        recvSalt.val.length = 16 ∧ recvHeader.val.length = 24 ∧
        sentBytes o.socket.2 = r.1.val ++ p.1.2.val ∧
        recvBytes o.socket.2 = recvSalt.val ++ recvHeader.val) :=
  ⟨by decide, by decide, by decide,
   handshake_wire_order Loopback.socket (toySodium true) passwordP
     (Loopback.mk wireFromSeed7P []) (ToyEnv.mk 1 2) (by decide) (by decide)⟩

/-- C7. AuthenticationError exactly on rejected receive-state
initialisation. The constructor is run on any transport and any primitives,
made to record the calls they receive. When, by those records, no transport
call threw and no hash failed: with `recvSalt` and `recvHeader` what the two
`recv` calls of the transport returned and `recvKey` what the hash returned
for the password and `recvSalt`, construction throws
`CryptoException("invalid password")` if and only if
`init_pull recvHeader recvKey` is rejected; otherwise it produces an Endpoint
whose receive state is what `init_pull` returned. In both cases the
transport is left as the four handshake calls leave it, its record being
exactly those four calls, and libsodium is left as the second hash leaves
it: the failure comes after all four transport calls and nothing follows. -/
theorem authentication_error_iff_init_pull_rejects {σ ρ St : Type}
    (sock : Socket σ) (na : Sodium ρ St) (pw : CppString) (s : σ) (env : ρ)
    (hT : ∀ c ∈ (Endpoint.Endpoint sock.recorded na.recorded pw (s, []) (env, [])).socket.2, c.failed = false)
    (hK : ∀ c ∈ (Endpoint.Endpoint sock.recorded na.recorded pw (s, []) (env, [])).env.2, c.pwhashFailed = false) :
    let o := Endpoint.Endpoint sock.recorded na.recorded pw (s, []) (env, [])
    let r := na.randombytes_buf env crypto_pwhash_SALTBYTES
    let a := sock.send s r.1.val
    let h := na.crypto_pwhash r.2 crypto_secretstream_xchacha20poly1305_KEYBYTES
      pw (List.length pw) r.1 crypto_pwhash_OPSLIMIT_INTERACTIVE
      crypto_pwhash_MEMLIMIT_INTERACTIVE crypto_pwhash_ALG_DEFAULT
    ∃ sendKey, h.1 = some sendKey ∧
      let p := na.crypto_secretstream_xchacha20poly1305_init_push h.2 sendKey
      let b := sock.send a.2 p.1.2.val
      let c := sock.recv b.2 crypto_pwhash_SALTBYTES
      ∃ recvSalt, c.1 = .ok recvSalt ∧
        let g := na.crypto_pwhash p.2 crypto_secretstream_xchacha20poly1305_KEYBYTES
          pw (List.length pw) recvSalt crypto_pwhash_OPSLIMIT_INTERACTIVE
          crypto_pwhash_MEMLIMIT_INTERACTIVE crypto_pwhash_ALG_DEFAULT
        let d := sock.recv c.2 crypto_secretstream_xchacha20poly1305_HEADERBYTES
        ∃ recvKey, g.1 = some recvKey ∧ ∃ recvHeader, d.1 = .ok recvHeader ∧
          a.1 = .ok () ∧ b.1 = .ok () ∧
          (o.result = .error (.cryptoException ⟨"invalid password"⟩) ↔
            na.crypto_secretstream_xchacha20poly1305_init_pull recvHeader recvKey = none) ∧
          (∀ st, na.crypto_secretstream_xchacha20poly1305_init_pull recvHeader recvKey
              = some st →
            ∃ ep, o.result = .ok ep ∧ ep.recvState = st ∧ ep.socket = o.socket) ∧
          o.socket = (d.2,
            [ .send r.1.val true,
              .send p.1.2.val true,
              .recv crypto_pwhash_SALTBYTES (some recvSalt.val),
              .recv crypto_secretstream_xchacha20poly1305_HEADERBYTES
                (some recvHeader.val) ]) ∧
          o.env = (g.2,
            [ .randombytes_buf crypto_pwhash_SALTBYTES r.1.val,
              hashCall pw r.1.val (some sendKey.val),
              .init_push sendKey.val p.1.2.val,
              hashCall pw recvSalt.val (some recvKey.val) ]) := by
  obtain ⟨ha, sendKey, hh, hb, recvSalt, hc, recvKey, hg, recvHeader, hd, hsock, henv,
    hnone, hsome⟩ := Endpoint.Endpoint_complete sock na pw s env hT hK
  refine ⟨sendKey, hh, recvSalt, hc, recvKey, hg, recvHeader, hd, ha, hb, ⟨?_, hnone⟩, ?_,
    hsock, henv⟩
  · intro hres
    cases hp : na.crypto_secretstream_xchacha20poly1305_init_pull recvHeader recvKey with
    | none => rfl
    | some st =>
      rw [hsome st hp] at hres
      cases hres
  · intro st hst
    exact ⟨_, hsome st hst, rfl, rfl⟩

/-- Witness for C7: the toy `init_pull` that checks the header rejects the
header of a peer that hashed another password, and the constructor throws
after its four transport calls. -/
theorem authentication_error_iff_init_pull_rejects_witness :
    (∀ c ∈ (Endpoint.Endpoint Loopback.socket.recorded (toySodium true).recorded passwordP ((Loopback.mk wireFromSeed7Q []), []) ((ToyEnv.mk 1 2), [])).socket.2, c.failed = false) ∧
    (∀ c ∈ (Endpoint.Endpoint Loopback.socket.recorded (toySodium true).recorded passwordP ((Loopback.mk wireFromSeed7Q []), []) ((ToyEnv.mk 1 2), [])).env.2, c.pwhashFailed = false) ∧
    (Endpoint.Endpoint Loopback.socket.recorded (toySodium true).recorded passwordP ((Loopback.mk wireFromSeed7Q []), []) ((ToyEnv.mk 1 2), [])).result.isOk = false ∧
    (Endpoint.Endpoint Loopback.socket.recorded (toySodium true).recorded passwordP ((Loopback.mk wireFromSeed7Q []), []) ((ToyEnv.mk 1 2), [])).socket.1 = Loopback.mk [] wireFromSeed1P ∧
    (
    let o := Endpoint.Endpoint Loopback.socket.recorded (toySodium true).recorded passwordP ((Loopback.mk wireFromSeed7Q []), []) ((ToyEnv.mk 1 2), [])
    let r := (toySodium true).randombytes_buf (ToyEnv.mk 1 2) crypto_pwhash_SALTBYTES
    let a := Loopback.socket.send (Loopback.mk wireFromSeed7Q []) r.1.val
    let h := (toySodium true).crypto_pwhash r.2 crypto_secretstream_xchacha20poly1305_KEYBYTES
      passwordP (List.length passwordP) r.1 crypto_pwhash_OPSLIMIT_INTERACTIVE
      crypto_pwhash_MEMLIMIT_INTERACTIVE crypto_pwhash_ALG_DEFAULT
    ∃ sendKey, h.1 = some sendKey ∧
      let p := (toySodium true).crypto_secretstream_xchacha20poly1305_init_push h.2 sendKey
      let b := Loopback.socket.send a.2 p.1.2.val
      let c := Loopback.socket.recv b.2 crypto_pwhash_SALTBYTES
      ∃ recvSalt, c.1 = .ok recvSalt ∧
        let g := (toySodium true).crypto_pwhash p.2 crypto_secretstream_xchacha20poly1305_KEYBYTES
          passwordP (List.length passwordP) recvSalt crypto_pwhash_OPSLIMIT_INTERACTIVE
          crypto_pwhash_MEMLIMIT_INTERACTIVE crypto_pwhash_ALG_DEFAULT
        let d := Loopback.socket.recv c.2 crypto_secretstream_xchacha20poly1305_HEADERBYTES
        ∃ recvKey, g.1 = some recvKey ∧ ∃ recvHeader, d.1 = .ok recvHeader ∧
          a.1 = .ok () ∧ b.1 = .ok () ∧
          (o.result = .error (.cryptoException ⟨"invalid password"⟩) ↔
            (toySodium true).crypto_secretstream_xchacha20poly1305_init_pull recvHeader recvKey = none) ∧
          (∀ st, (toySodium true).crypto_secretstream_xchacha20poly1305_init_pull recvHeader recvKey
              = some st →
            ∃ ep, o.result = .ok ep ∧ ep.recvState = st ∧ ep.socket = o.socket) ∧
          o.socket = (d.2,
            [ .send r.1.val true,
              .send p.1.2.val true,
              .recv crypto_pwhash_SALTBYTES (some recvSalt.val),
              .recv crypto_secretstream_xchacha20poly1305_HEADERBYTES
                (some recvHeader.val) ]) ∧
          o.env = (g.2,
            [ .randombytes_buf crypto_pwhash_SALTBYTES r.1.val,
              hashCall passwordP r.1.val (some sendKey.val),
              .init_push sendKey.val p.1.2.val,
              hashCall passwordP recvSalt.val (some recvKey.val) ])) :=
  ⟨by decide, by decide, by decide, by decide,
   authentication_error_iff_init_pull_rejects Loopback.socket (toySodium true) passwordP
     (Loopback.mk wireFromSeed7Q []) (ToyEnv.mk 1 2) (by decide) (by decide)⟩

/-- C8. Key-derivation failure is fatal and not retried. The constructor is
run on any transport and any primitives, made to record the calls they
receive. When the record of the primitives shows a password hash call that
returned non-zero, construction throws
`std::runtime_error("crypto_pwhash ran out of memory")`, which is not a
`CryptoException`, and produces no Endpoint. Either the hash of the own salt
returned non-zero: then libsodium received the draw of the salt and that one
hash call and is left as that call leaves it, and the transport received the
send of the salt and is left as that send leaves it. Or the hash of the own
salt gave a key and the hash of the received salt returned non-zero: then
libsodium received draw, hash, `init_push`, hash and is left as the failing
call leaves it, and the transport received send, send, recv and is left as
that recv leaves it. Every hash call recorded has the key length, the
password and its size, and the interactive limits; no call of any kind
follows the failing one. -/
theorem key_derivation_failure_is_fatal {σ ρ St : Type}
    (sock : Socket σ) (na : Sodium ρ St) (pw : CppString) (s : σ) (env : ρ)
    (hfail : ∃ c ∈ (Endpoint.Endpoint sock.recorded na.recorded pw (s, []) (env, [])).env.2, c.pwhashFailed = true) :
    let o := Endpoint.Endpoint sock.recorded na.recorded pw (s, []) (env, [])
    let r := na.randombytes_buf env crypto_pwhash_SALTBYTES
    let a := sock.send s r.1.val
    let h := na.crypto_pwhash r.2 crypto_secretstream_xchacha20poly1305_KEYBYTES
      pw (List.length pw) r.1 crypto_pwhash_OPSLIMIT_INTERACTIVE
      crypto_pwhash_MEMLIMIT_INTERACTIVE crypto_pwhash_ALG_DEFAULT
    o.result = .error (.runtime_error "crypto_pwhash ran out of memory") ∧
    (∀ m, o.result ≠ .error (.cryptoException m)) ∧
    (∀ ep, o.result ≠ .ok ep) ∧
    a.1 = .ok () ∧
    ((h.1 = none ∧
      o.socket = (a.2, [.send r.1.val true]) ∧
      o.env = (h.2,
        [ .randombytes_buf crypto_pwhash_SALTBYTES r.1.val,
          hashCall pw r.1.val none ])) ∨
     (∃ sendKey, h.1 = some sendKey ∧
      let p := na.crypto_secretstream_xchacha20poly1305_init_push h.2 sendKey
      let b := sock.send a.2 p.1.2.val
      let c := sock.recv b.2 crypto_pwhash_SALTBYTES
      b.1 = .ok () ∧ ∃ recvSalt, c.1 = .ok recvSalt ∧
        let g := na.crypto_pwhash p.2 crypto_secretstream_xchacha20poly1305_KEYBYTES
          pw (List.length pw) recvSalt crypto_pwhash_OPSLIMIT_INTERACTIVE
          crypto_pwhash_MEMLIMIT_INTERACTIVE crypto_pwhash_ALG_DEFAULT
        g.1 = none ∧
        o.socket = (c.2,
          [ .send r.1.val true,
            .send p.1.2.val true,
            .recv crypto_pwhash_SALTBYTES (some recvSalt.val) ]) ∧
        o.env = (g.2,
          [ .randombytes_buf crypto_pwhash_SALTBYTES r.1.val,
            hashCall pw r.1.val (some sendKey.val),
            .init_push sendKey.val p.1.2.val,
            hashCall pw recvSalt.val none ]))) := by
  have hx := Endpoint.Endpoint_exits sock na pw s env
  simp only at hx
  intro o r a h
  have key : ∀ x : Outcome (σ × List SocketCall) (ρ × List SodiumCall)
        (zem.Endpoint (σ × List SocketCall) St),
      x.result = .error (.runtime_error "crypto_pwhash ran out of memory") →
      (∀ m, x.result ≠ .error (.cryptoException m)) ∧ (∀ ep, x.result ≠ .ok ep) := by
    intro x hx
    rw [hx]
    exact ⟨fun m hm => (by cases hm), fun ep hep => (by cases hep)⟩
  obtain ⟨ev, hmem, hev⟩ := hfail
  rcases hx with ⟨e, -, ho⟩ | ⟨ha, hx⟩
  · rw [ho] at hmem; simp at hmem
    subst hmem; simp [SodiumCall.pwhashFailed] at hev
  rcases hx with ⟨hh, ho⟩ | ⟨sendKey, hh, hx⟩
  · have ho' : o = _ := ho
    have hres : o.result = .error (.runtime_error "crypto_pwhash ran out of memory") := by
      rw [ho']
    exact ⟨hres, (key _ hres).1, (key _ hres).2, ha, Or.inl ⟨hh, by rw [ho'], by rw [ho']⟩⟩
  rcases hx with ⟨e, -, ho⟩ | ⟨hb, hx⟩
  · rw [ho] at hmem; simp [hashCall] at hmem
    rcases hmem with rfl | rfl | rfl <;> simp [SodiumCall.pwhashFailed] at hev
  rcases hx with ⟨e, -, ho⟩ | ⟨recvSalt, hc, hx⟩
  · rw [ho] at hmem; simp [hashCall] at hmem
    rcases hmem with rfl | rfl | rfl <;> simp [SodiumCall.pwhashFailed] at hev
  rcases hx with ⟨hg, ho⟩ | ⟨recvKey, -, hx⟩
  · have ho' : o = _ := ho
    have hres : o.result = .error (.runtime_error "crypto_pwhash ran out of memory") := by
      rw [ho']
    exact ⟨hres, (key _ hres).1, (key _ hres).2, ha,
      Or.inr ⟨sendKey, hh, hb, recvSalt, hc, hg, by rw [ho'], by rw [ho']; rfl⟩⟩
  rcases hx with ⟨e, -, ho⟩ | ⟨recvHeader, -, hx⟩
  · rw [ho] at hmem; simp [hashCall, handshakeSodiumRecord] at hmem
    rcases hmem with rfl | rfl | rfl | rfl <;> simp [SodiumCall.pwhashFailed] at hev
  rcases hx with ⟨-, ho⟩ | ⟨st, -, ho⟩
  · rw [ho] at hmem; simp [hashCall, handshakeSodiumRecord] at hmem
    rcases hmem with rfl | rfl | rfl | rfl <;> simp [SodiumCall.pwhashFailed] at hev
  · rw [ho] at hmem; simp [hashCall, handshakeSodiumRecord] at hmem
    rcases hmem with rfl | rfl | rfl | rfl <;> simp [SodiumCall.pwhashFailed] at hev

/-- Witness for C8: the toy hash finds memory for one call only, so the
receive-direction hash fails. -/
theorem key_derivation_failure_is_fatal_witness :
    (∃ c ∈ (Endpoint.Endpoint Loopback.socket.recorded (toySodium true).recorded passwordP ((Loopback.mk wireFromSeed7P []), []) ((ToyEnv.mk 1 1), [])).env.2, c.pwhashFailed = true) ∧
    (Endpoint.Endpoint Loopback.socket.recorded (toySodium true).recorded passwordP ((Loopback.mk wireFromSeed7P []), []) ((ToyEnv.mk 1 1), [])).socket.2.length = 3 ∧
    (Endpoint.Endpoint Loopback.socket.recorded (toySodium true).recorded passwordP ((Loopback.mk wireFromSeed7P []), []) ((ToyEnv.mk 1 1), [])).env.2.length = 4 ∧
    (
    let o := Endpoint.Endpoint Loopback.socket.recorded (toySodium true).recorded passwordP ((Loopback.mk wireFromSeed7P []), []) ((ToyEnv.mk 1 1), [])
    let r := (toySodium true).randombytes_buf (ToyEnv.mk 1 1) crypto_pwhash_SALTBYTES
    let a := Loopback.socket.send (Loopback.mk wireFromSeed7P []) r.1.val
    let h := (toySodium true).crypto_pwhash r.2 crypto_secretstream_xchacha20poly1305_KEYBYTES
      passwordP (List.length passwordP) r.1 crypto_pwhash_OPSLIMIT_INTERACTIVE
      crypto_pwhash_MEMLIMIT_INTERACTIVE crypto_pwhash_ALG_DEFAULT
    o.result = .error (.runtime_error "crypto_pwhash ran out of memory") ∧
    (∀ m, o.result ≠ .error (.cryptoException m)) ∧
    (∀ ep, o.result ≠ .ok ep) ∧
    a.1 = .ok () ∧
    ((h.1 = none ∧
      o.socket = (a.2, [.send r.1.val true]) ∧
      o.env = (h.2,
        [ .randombytes_buf crypto_pwhash_SALTBYTES r.1.val,
          hashCall passwordP r.1.val none ])) ∨
     (∃ sendKey, h.1 = some sendKey ∧
      let p := (toySodium true).crypto_secretstream_xchacha20poly1305_init_push h.2 sendKey
      let b := Loopback.socket.send a.2 p.1.2.val
      let c := Loopback.socket.recv b.2 crypto_pwhash_SALTBYTES
      b.1 = .ok () ∧ ∃ recvSalt, c.1 = .ok recvSalt ∧
        let g := (toySodium true).crypto_pwhash p.2 crypto_secretstream_xchacha20poly1305_KEYBYTES
          passwordP (List.length passwordP) recvSalt crypto_pwhash_OPSLIMIT_INTERACTIVE
          crypto_pwhash_MEMLIMIT_INTERACTIVE crypto_pwhash_ALG_DEFAULT
        g.1 = none ∧
        o.socket = (c.2,
          [ .send r.1.val true,
            .send p.1.2.val true,
            .recv crypto_pwhash_SALTBYTES (some recvSalt.val) ]) ∧
        o.env = (g.2,
          [ .randombytes_buf crypto_pwhash_SALTBYTES r.1.val,
            hashCall passwordP r.1.val (some sendKey.val),
            .init_push sendKey.val p.1.2.val,
            hashCall passwordP recvSalt.val none ])))) :=
  ⟨by decide, by decide, by decide,
   key_derivation_failure_is_fatal Loopback.socket (toySodium true) passwordP
     (Loopback.mk wireFromSeed7P []) (ToyEnv.mk 1 1) (by decide)⟩

/-- C9, counterexample. With a hash that finds no memory, the
send-direction key derivation fails, and by then the 16 octets of the salt
have been written on the transport. -/
theorem salt_sent_before_failed_derivation :
    ((toySodium true).crypto_pwhash ((toySodium true).randombytes_buf (ToyEnv.mk 1 0) crypto_pwhash_SALTBYTES).2
      crypto_secretstream_xchacha20poly1305_KEYBYTES passwordP (List.length passwordP)
      ((toySodium true).randombytes_buf (ToyEnv.mk 1 0) crypto_pwhash_SALTBYTES).1 crypto_pwhash_OPSLIMIT_INTERACTIVE
      crypto_pwhash_MEMLIMIT_INTERACTIVE crypto_pwhash_ALG_DEFAULT).1 = none ∧
    (toyRun true passwordP [] 1 0).result =
      .error (.runtime_error "crypto_pwhash ran out of memory") ∧
    (toyRun true passwordP [] 1 0).socket =
      (Loopback.mk [] (List.replicate 16 1), [.send (List.replicate 16 1) true]) ∧
    (toyRun true passwordP [] 1 0).socket.1.outbound ≠ [] ∧
    (toyRun true passwordP [] 1 0).env.2 =
      [ .randombytes_buf 16 (List.replicate 16 1),
        hashCall passwordP (List.replicate 16 1) none ] := by
  refine ⟨rfl, rfl, by decide, by decide, by decide⟩

/-- C9, amended. The constructor is run on any transport and any primitives,
made to record the calls they receive. The first call the transport receives
is the send of the salt just drawn, and when that send throws, libsodium has
received nothing but the draw: the salt is handed to the transport before
the send key is derived. When that send returned and the hash of the
password and that salt returns non-zero, the transport has received exactly
that one call and is left as it leaves it: the 16 octets of the salt have
been sent and the header has not. A second send, when the transport receives
one, carries the 24-octet header that `init_push` produced under the key
hashed from the password and the salt, both calls being on libsodium's
record by then. -/
theorem salt_sent_then_key_derived_then_header_sent {σ ρ St : Type}
    (sock : Socket σ) (na : Sodium ρ St) (pw : CppString) (s : σ) (env : ρ) :
    let o := Endpoint.Endpoint sock.recorded na.recorded pw (s, []) (env, [])
    let r := na.randombytes_buf env crypto_pwhash_SALTBYTES
    let a := sock.send s r.1.val
    let h := na.crypto_pwhash r.2 crypto_secretstream_xchacha20poly1305_KEYBYTES
      pw (List.length pw) r.1 crypto_pwhash_OPSLIMIT_INTERACTIVE
      crypto_pwhash_MEMLIMIT_INTERACTIVE crypto_pwhash_ALG_DEFAULT
    (∃ ok rest, o.socket.2 = .send r.1.val ok :: rest) ∧
    (∀ e, a.1 = .error e →
      o.socket = (a.2, [.send r.1.val false]) ∧
      o.env = (r.2, [.randombytes_buf crypto_pwhash_SALTBYTES r.1.val])) ∧
    (a.1 = .ok () → h.1 = none →
      o.result = .error (.runtime_error "crypto_pwhash ran out of memory") ∧
      o.socket = (a.2, [.send r.1.val true]) ∧
      o.env = (h.2,
        [ .randombytes_buf crypto_pwhash_SALTBYTES r.1.val,
          hashCall pw r.1.val none ]) ∧
      sentBytes o.socket.2 = r.1.val ∧
      r.1.val.length = 16) ∧
    (∀ x ok rest, o.socket.2 = .send r.1.val true :: .send x ok :: rest →
      ∃ sendKey, h.1 = some sendKey ∧
        x = (na.crypto_secretstream_xchacha20poly1305_init_push h.2 sendKey).1.2.val ∧
        x.length = 24 ∧
        o.env.2.take 3 =
          [ .randombytes_buf crypto_pwhash_SALTBYTES r.1.val,
            hashCall pw r.1.val (some sendKey.val),
            .init_push sendKey.val x ]) := by
  have hx := Endpoint.Endpoint_exits sock na pw s env
  simp only at hx
  intro o r a h
  have hlen : r.1.val.length = 16 := r.1.property
  rcases hx with ⟨e, ha, ho⟩ | ⟨ha, hx⟩
  · have ho' : o = _ := ho
    refine ⟨⟨_, _, congrArg (fun x => x.socket.2) ho'⟩, ?_, ?_, ?_⟩
    · intro e2 he
      rw [ha] at he
      cases he
      exact ⟨by rw [ho'], by rw [ho']⟩
    · intro hok
      rw [ha] at hok
      cases hok
    · intro x ok rest hlog
      rw [ho'] at hlog
      simp at hlog
  rcases hx with ⟨hh, ho⟩ | ⟨sendKey, hh, hx⟩
  · have ho' : o = _ := ho
    refine ⟨⟨_, _, congrArg (fun x => x.socket.2) ho'⟩, ?_, ?_, ?_⟩
    · intro e he
      rw [ha] at he
      cases he
    · intro _ _
      exact ⟨by rw [ho'], by rw [ho'], by rw [ho'], (by rw [ho']; simp [sentBytes]), hlen⟩
    · intro x ok rest hlog
      rw [ho'] at hlog
      simp at hlog
  rcases hx with ⟨e, -, ho⟩ | ⟨-, hx⟩
  · have ho' : o = _ := ho
    refine ⟨⟨_, _, congrArg (fun x => x.socket.2) ho'⟩, ?_, ?_, ?_⟩
    · intro e he
      rw [ha] at he
      cases he
    · intro _ hn
      rw [hh] at hn
      cases hn
    · intro x ok rest hlog
      rw [ho'] at hlog
      simp only [handshakeSocketRecord, List.cons.injEq, SocketCall.send.injEq, true_and,
        and_true] at hlog
      obtain ⟨⟨hxe, -⟩, -⟩ := hlog
      subst hxe
      exact ⟨sendKey, hh, rfl,
        (na.crypto_secretstream_xchacha20poly1305_init_push _ sendKey).1.2.property,
        (by rw [ho']; rfl)⟩
  rcases hx with ⟨e, -, ho⟩ | ⟨recvSalt, -, hx⟩
  · have ho' : o = _ := ho
    refine ⟨⟨_, _, congrArg (fun x => x.socket.2) ho'⟩, ?_, ?_, ?_⟩
    · intro e he
      rw [ha] at he
      cases he
    · intro _ hn
      rw [hh] at hn
      cases hn
    · intro x ok rest hlog
      rw [ho'] at hlog
      simp only [handshakeSocketRecord, List.cons.injEq, SocketCall.send.injEq, true_and,
        and_true] at hlog
      obtain ⟨⟨hxe, -⟩, -⟩ := hlog
      subst hxe
      exact ⟨sendKey, hh, rfl,
        (na.crypto_secretstream_xchacha20poly1305_init_push _ sendKey).1.2.property,
        (by rw [ho']; rfl)⟩
  rcases hx with ⟨-, ho⟩ | ⟨recvKey, -, hx⟩
  · have ho' : o = _ := ho
    refine ⟨⟨_, _, congrArg (fun x => x.socket.2) ho'⟩, ?_, ?_, ?_⟩
    · intro e he
      rw [ha] at he
      cases he
    · intro _ hn
      rw [hh] at hn
      cases hn
    · intro x ok rest hlog
      rw [ho'] at hlog
      simp only [handshakeSocketRecord, List.cons.injEq, SocketCall.send.injEq, true_and,
        and_true] at hlog
      obtain ⟨⟨hxe, -⟩, -⟩ := hlog
      subst hxe
      exact ⟨sendKey, hh, rfl,
        (na.crypto_secretstream_xchacha20poly1305_init_push _ sendKey).1.2.property,
        (by rw [ho']; rfl)⟩
  rcases hx with ⟨e, -, ho⟩ | ⟨recvHeader, -, hx⟩
  · have ho' : o = _ := ho
    refine ⟨⟨_, _, congrArg (fun x => x.socket.2) ho'⟩, ?_, ?_, ?_⟩
    · intro e he
      rw [ha] at he
      cases he
    · intro _ hn
      rw [hh] at hn
      cases hn
    · intro x ok rest hlog
      rw [ho'] at hlog
      simp only [handshakeSocketRecord, List.cons.injEq, SocketCall.send.injEq, true_and,
        and_true] at hlog
      obtain ⟨⟨hxe, -⟩, -⟩ := hlog
      subst hxe
      exact ⟨sendKey, hh, rfl,
        (na.crypto_secretstream_xchacha20poly1305_init_push _ sendKey).1.2.property,
        (by rw [ho']; rfl)⟩
  rcases hx with ⟨-, ho⟩ | ⟨st, -, ho⟩
  · have ho' : o = _ := ho
    refine ⟨⟨_, _, congrArg (fun x => x.socket.2) ho'⟩, ?_, ?_, ?_⟩
    · intro e he
      rw [ha] at he
      cases he
    · intro _ hn
      rw [hh] at hn
      cases hn
    · intro x ok rest hlog
      rw [ho'] at hlog
      simp only [handshakeSocketRecord, List.cons.injEq, SocketCall.send.injEq, true_and,
        and_true] at hlog
      obtain ⟨⟨hxe, -⟩, -⟩ := hlog
      subst hxe
      exact ⟨sendKey, hh, rfl,
        (na.crypto_secretstream_xchacha20poly1305_init_push _ sendKey).1.2.property,
        (by rw [ho']; rfl)⟩
  · have ho' : o = _ := ho
    refine ⟨⟨_, _, congrArg (fun x => x.socket.2) ho'⟩, ?_, ?_, ?_⟩
    · intro e he
      rw [ha] at he
      cases he
    · intro _ hn
      rw [hh] at hn
      cases hn
    · intro x ok rest hlog
      rw [ho'] at hlog
      simp only [handshakeSocketRecord, List.cons.injEq, SocketCall.send.injEq, true_and,
        and_true] at hlog
      obtain ⟨⟨hxe, -⟩, -⟩ := hlog
      subst hxe
      exact ⟨sendKey, hh, rfl,
        (na.crypto_secretstream_xchacha20poly1305_init_push _ sendKey).1.2.property,
        (by rw [ho']; rfl)⟩

/-- Witness for C9, amended: the run of the counterexample. -/
theorem salt_sent_then_key_derived_then_header_sent_witness :
    (Loopback.socket.send (Loopback.mk [] []) ((toySodium true).randombytes_buf (ToyEnv.mk 1 0) crypto_pwhash_SALTBYTES).1.val).1 = .ok () ∧
    ((toySodium true).crypto_pwhash ((toySodium true).randombytes_buf (ToyEnv.mk 1 0) crypto_pwhash_SALTBYTES).2
      crypto_secretstream_xchacha20poly1305_KEYBYTES passwordP (List.length passwordP)
      ((toySodium true).randombytes_buf (ToyEnv.mk 1 0) crypto_pwhash_SALTBYTES).1 crypto_pwhash_OPSLIMIT_INTERACTIVE
      crypto_pwhash_MEMLIMIT_INTERACTIVE crypto_pwhash_ALG_DEFAULT).1 = none ∧
    (
    let o := Endpoint.Endpoint Loopback.socket.recorded (toySodium true).recorded passwordP ((Loopback.mk [] []), []) ((ToyEnv.mk 1 0), [])
    let r := (toySodium true).randombytes_buf (ToyEnv.mk 1 0) crypto_pwhash_SALTBYTES
    let a := Loopback.socket.send (Loopback.mk [] []) r.1.val
    let h := (toySodium true).crypto_pwhash r.2 crypto_secretstream_xchacha20poly1305_KEYBYTES
      passwordP (List.length passwordP) r.1 crypto_pwhash_OPSLIMIT_INTERACTIVE
      crypto_pwhash_MEMLIMIT_INTERACTIVE crypto_pwhash_ALG_DEFAULT
    o.result = .error (.runtime_error "crypto_pwhash ran out of memory") ∧
    o.socket = (a.2, [.send r.1.val true]) ∧
    o.env = (h.2,
      [ .randombytes_buf crypto_pwhash_SALTBYTES r.1.val,
        hashCall passwordP r.1.val none ]) ∧
    sentBytes o.socket.2 = r.1.val ∧
    r.1.val.length = 16) :=
  ⟨rfl, rfl,
   (salt_sent_then_key_derived_then_header_sent Loopback.socket (toySodium true) passwordP
      (Loopback.mk [] []) (ToyEnv.mk 1 0)).2.2.1 rfl rfl⟩

section loopback
variable {ρ St : Type}

/-- Sending on the in-memory transport always returns and appends to what
was written. -/
theorem Loopback.send_eq (s : Loopback) (source : List Byte) :
    Loopback.socket.send s source = (.ok (), ⟨s.inbound, s.outbound ++ source⟩) := rfl

/-- Receiving `n` octets when the peer wrote those `n` and more. -/
theorem Loopback.recv_append {n : Nat} (x : Bytes n) (rest out : List Byte) :
    Loopback.socket.recv ⟨x.val ++ rest, out⟩ n = (.ok x, ⟨rest, out⟩) := by
  obtain ⟨x, hx⟩ := x
  have hle : n ≤ (x ++ rest).length := by simp [hx]
  simp only [Loopback.socket, hle, dite_true, List.take_left' hx, List.drop_left' hx]

/-- Receiving never changes what was written. -/
theorem Loopback.recv_outbound (s : Loopback) (n : Nat) :
    (Loopback.socket.recv s n).2.outbound = s.outbound := by
  simp only [Loopback.socket]
  split <;> rfl

/-- Over the in-memory transport, a run in which no hash fails has written
the own salt followed by the own header. -/
theorem Loopback.sent_of_hashes (na : Sodium ρ St) (pw : CppString) (s : Loopback) (env : ρ)
    (hK : ∀ c ∈ (Endpoint.Endpoint Loopback.socket.recorded na.recorded pw
      (s, []) (env, [])).env.2, c.pwhashFailed = false) :
    let r := na.randombytes_buf env crypto_pwhash_SALTBYTES
    let h := na.crypto_pwhash r.2 crypto_secretstream_xchacha20poly1305_KEYBYTES
        pw (List.length pw) r.1 crypto_pwhash_OPSLIMIT_INTERACTIVE
        crypto_pwhash_MEMLIMIT_INTERACTIVE crypto_pwhash_ALG_DEFAULT
    ∃ sendKey, h.1 = some sendKey ∧
      (Endpoint.Endpoint Loopback.socket.recorded na.recorded pw
        (s, []) (env, [])).socket.1.outbound =
        s.outbound ++ r.1.val ++
          (na.crypto_secretstream_xchacha20poly1305_init_push h.2 sendKey).1.2.val := by
  have hx := Endpoint.Endpoint_exits Loopback.socket na pw s env
  simp only [Loopback.send_eq] at hx
  intro r h
  rcases hx with ⟨e, he, -⟩ | ⟨-, hx⟩
  · cases he
  rcases hx with ⟨-, ho⟩ | ⟨sendKey, hh, hx⟩
  · rw [ho] at hK; simp [SodiumCall.pwhashFailed, hashCall] at hK
  refine ⟨sendKey, hh, ?_⟩
  rcases hx with ⟨e, he, -⟩ | ⟨-, hx⟩
  · cases he
  rcases hx with ⟨e, -, ho⟩ | ⟨recvSalt, -, hx⟩
  · rw [ho]; simp only [Loopback.recv_outbound]
  rcases hx with ⟨-, ho⟩ | ⟨recvKey, -, hx⟩
  · rw [ho]; simp only [Loopback.recv_outbound]
  rcases hx with ⟨e, -, ho⟩ | ⟨recvHeader, -, hx⟩
  · rw [ho]; simp only [Loopback.recv_outbound]
  rcases hx with ⟨-, ho⟩ | ⟨st, -, ho⟩
  · rw [ho]; simp only [Loopback.recv_outbound]
  · rw [ho]; simp only [Loopback.recv_outbound]

/-- Over the in-memory transport carrying a peer's salt `x` and header `y`,
a run in which no hash fails goes through all nine steps with `x` and `y`
as received salt and header. -/
theorem Loopback.run_of_wire (na : Sodium ρ St) (pw : CppString) (env : ρ)
    (x : Bytes crypto_pwhash_SALTBYTES)
    (y : Bytes crypto_secretstream_xchacha20poly1305_HEADERBYTES)
    (hK : ∀ c ∈ (Endpoint.Endpoint Loopback.socket.recorded na.recorded pw
      (Loopback.mk (x.val ++ y.val) [], []) (env, [])).env.2, c.pwhashFailed = false) :
    let o := Endpoint.Endpoint Loopback.socket.recorded na.recorded pw
      (Loopback.mk (x.val ++ y.val) [], []) (env, [])
    let r := na.randombytes_buf env crypto_pwhash_SALTBYTES
    let h := na.crypto_pwhash r.2 crypto_secretstream_xchacha20poly1305_KEYBYTES
        pw (List.length pw) r.1 crypto_pwhash_OPSLIMIT_INTERACTIVE
        crypto_pwhash_MEMLIMIT_INTERACTIVE crypto_pwhash_ALG_DEFAULT
    ∃ sendKey, h.1 = some sendKey ∧
      let p := na.crypto_secretstream_xchacha20poly1305_init_push h.2 sendKey
      let g := na.crypto_pwhash p.2 crypto_secretstream_xchacha20poly1305_KEYBYTES
        pw (List.length pw) x crypto_pwhash_OPSLIMIT_INTERACTIVE
        crypto_pwhash_MEMLIMIT_INTERACTIVE crypto_pwhash_ALG_DEFAULT
      ∃ recvKey, g.1 = some recvKey ∧
        o.socket = (Loopback.mk [] (r.1.val ++ p.1.2.val),
          handshakeSocketRecord r.1.val p.1.2.val x.val y.val) ∧
        o.env = (g.2, handshakeSodiumRecord pw r.1.val sendKey.val p.1.2.val x.val
          recvKey.val) ∧
        (na.crypto_secretstream_xchacha20poly1305_init_pull y recvKey = none →
          o.result = .error (.cryptoException ⟨"invalid password"⟩)) ∧
        (∀ st, na.crypto_secretstream_xchacha20poly1305_init_pull y recvKey = some st →
          o.result = .ok { socket := o.socket, sendState := p.1.1, sendBuffer := [],
                           recvState := st, recvBuffer := [] }) := by
  have hx := Endpoint.Endpoint_exits Loopback.socket na pw (Loopback.mk (x.val ++ y.val) []) env
  simp only [Loopback.send_eq, List.nil_append] at hx
  intro o r h
  rcases hx with ⟨e, he, -⟩ | ⟨-, hx⟩
  · cases he
  rcases hx with ⟨-, ho⟩ | ⟨sendKey, hh, hx⟩
  · rw [ho] at hK; simp [SodiumCall.pwhashFailed, hashCall] at hK
  refine ⟨sendKey, hh, ?_⟩
  intro p g
  rcases hx with ⟨e, he, -⟩ | ⟨-, hx⟩
  · cases he
  rw [Loopback.recv_append x y.val] at hx
  rcases hx with ⟨e, he, -⟩ | ⟨recvSalt, hc, hx⟩
  · cases he
  cases hc
  rcases hx with ⟨-, ho⟩ | ⟨recvKey, hg, hx⟩
  · rw [ho] at hK; simp [SodiumCall.pwhashFailed, hashCall] at hK
  refine ⟨recvKey, hg, ?_⟩
  have hy := Loopback.recv_append y [] (r.1.val ++ p.1.2.val)
  rw [List.append_nil] at hy
  rw [hy] at hx
  rcases hx with ⟨e, he, -⟩ | ⟨recvHeader, hd, hx⟩
  · cases he
  cases hd
  rcases hx with ⟨hp, ho⟩ | ⟨st, hp, ho⟩
  · have ho' : o = _ := ho
    refine ⟨by rw [ho'], by rw [ho'], fun _ => by rw [ho'], ?_⟩
    intro st hst
    rw [hp] at hst
    cases hst
  · have ho' : o = _ := ho
    refine ⟨by rw [ho'], by rw [ho'], ?_, ?_⟩
    · intro hn
      rw [hp] at hn
      cases hn
    · intro st2 hst
      rw [hp] at hst
      cases hst
      rw [ho']

/-- Two constructions over a connected pair of in-memory transports (what
each side has to read is what the other side wrote), with passwords `p` and
`q`, in which no hash fails: both go through all nine steps, each receiving
the salt and header the other wrote, and on each side the result is decided
by `init_pull` on the peer's header and the key hashed from the own password
and the peer's salt. -/
theorem Loopback.pair (na : Sodium ρ St) (p q : CppString) (envA envB : ρ)
    (inA inB : List Byte)
    (hcA : inA = (Endpoint.Endpoint Loopback.socket.recorded na.recorded q
        (Loopback.mk inB [], []) (envB, [])).socket.1.outbound)
    (hcB : inB = (Endpoint.Endpoint Loopback.socket.recorded na.recorded p
        (Loopback.mk inA [], []) (envA, [])).socket.1.outbound)
    (hKA : ∀ c ∈ (Endpoint.Endpoint Loopback.socket.recorded na.recorded p
        (Loopback.mk inA [], []) (envA, [])).env.2, c.pwhashFailed = false)
    (hKB : ∀ c ∈ (Endpoint.Endpoint Loopback.socket.recorded na.recorded q
        (Loopback.mk inB [], []) (envB, [])).env.2, c.pwhashFailed = false) :
    let rA := na.randombytes_buf envA crypto_pwhash_SALTBYTES
    let dA := na.crypto_pwhash rA.2 crypto_secretstream_xchacha20poly1305_KEYBYTES
      p (List.length p) rA.1 crypto_pwhash_OPSLIMIT_INTERACTIVE
      crypto_pwhash_MEMLIMIT_INTERACTIVE crypto_pwhash_ALG_DEFAULT
    let rB := na.randombytes_buf envB crypto_pwhash_SALTBYTES
    let dB := na.crypto_pwhash rB.2 crypto_secretstream_xchacha20poly1305_KEYBYTES
      q (List.length q) rB.1 crypto_pwhash_OPSLIMIT_INTERACTIVE
      crypto_pwhash_MEMLIMIT_INTERACTIVE crypto_pwhash_ALG_DEFAULT
    ∃ keyA keyB, dA.1 = some keyA ∧ dB.1 = some keyB ∧
      let pA := na.crypto_secretstream_xchacha20poly1305_init_push dA.2 keyA
      let pB := na.crypto_secretstream_xchacha20poly1305_init_push dB.2 keyB
      let gA := na.crypto_pwhash pA.2 crypto_secretstream_xchacha20poly1305_KEYBYTES
        p (List.length p) rB.1 crypto_pwhash_OPSLIMIT_INTERACTIVE
        crypto_pwhash_MEMLIMIT_INTERACTIVE crypto_pwhash_ALG_DEFAULT
      let gB := na.crypto_pwhash pB.2 crypto_secretstream_xchacha20poly1305_KEYBYTES
        q (List.length q) rA.1 crypto_pwhash_OPSLIMIT_INTERACTIVE
        crypto_pwhash_MEMLIMIT_INTERACTIVE crypto_pwhash_ALG_DEFAULT
      ∃ keyAB keyBA, gA.1 = some keyAB ∧ gB.1 = some keyBA ∧
        (Endpoint.Endpoint Loopback.socket.recorded na.recorded p
        (Loopback.mk inA [], []) (envA, [])).socket =
          (Loopback.mk [] (rA.1.val ++ pA.1.2.val),
            handshakeSocketRecord rA.1.val pA.1.2.val rB.1.val pB.1.2.val) ∧
        (Endpoint.Endpoint Loopback.socket.recorded na.recorded q
        (Loopback.mk inB [], []) (envB, [])).socket =
          (Loopback.mk [] (rB.1.val ++ pB.1.2.val),
            handshakeSocketRecord rB.1.val pB.1.2.val rA.1.val pA.1.2.val) ∧
        (Endpoint.Endpoint Loopback.socket.recorded na.recorded p
        (Loopback.mk inA [], []) (envA, [])).env =
          (gA.2, handshakeSodiumRecord p rA.1.val keyA.val pA.1.2.val rB.1.val keyAB.val) ∧
        (Endpoint.Endpoint Loopback.socket.recorded na.recorded q
        (Loopback.mk inB [], []) (envB, [])).env =
          (gB.2, handshakeSodiumRecord q rB.1.val keyB.val pB.1.2.val rA.1.val keyBA.val) ∧
        (na.crypto_secretstream_xchacha20poly1305_init_pull pB.1.2 keyAB = none →
          (Endpoint.Endpoint Loopback.socket.recorded na.recorded p
        (Loopback.mk inA [], []) (envA, [])).result
            = .error (.cryptoException ⟨"invalid password"⟩)) ∧
        (∀ st, na.crypto_secretstream_xchacha20poly1305_init_pull pB.1.2 keyAB = some st →
          ∃ ep, (Endpoint.Endpoint Loopback.socket.recorded na.recorded p
        (Loopback.mk inA [], []) (envA, [])).result = .ok ep ∧
            ep.recvState = st ∧ ep.sendState = pA.1.1) ∧
        (na.crypto_secretstream_xchacha20poly1305_init_pull pA.1.2 keyBA = none →
          (Endpoint.Endpoint Loopback.socket.recorded na.recorded q
        (Loopback.mk inB [], []) (envB, [])).result
            = .error (.cryptoException ⟨"invalid password"⟩)) ∧
        (∀ st, na.crypto_secretstream_xchacha20poly1305_init_pull pA.1.2 keyBA = some st →
          ∃ ep, (Endpoint.Endpoint Loopback.socket.recorded na.recorded q
        (Loopback.mk inB [], []) (envB, [])).result = .ok ep ∧
            ep.recvState = st ∧ ep.sendState = pB.1.1) := by
  obtain ⟨kA, hkA0, hsA⟩ := Loopback.sent_of_hashes na p (Loopback.mk inA []) envA hKA
  obtain ⟨kB, hkB0, hsB⟩ := Loopback.sent_of_hashes na q (Loopback.mk inB []) envB hKB
  have hA' := hcA.trans hsB
  have hB' := hcB.trans hsA
  simp only [List.nil_append] at hA' hB'
  clear hcA hcB hsA hsB
  subst hA' hB'
  obtain ⟨keyA, hkA, keyAB, hkAB, hsockA, henvA, hnA, hoA⟩ :=
    Loopback.run_of_wire na p envA _ _ hKA
  obtain ⟨keyB, hkB, keyBA, hkBA, hsockB, henvB, hnB, hoB⟩ :=
    Loopback.run_of_wire na q envB _ _ hKB
  rw [hkA0] at hkA
  cases hkA
  rw [hkB0] at hkB
  cases hkB
  exact ⟨kA, kB, hkA0, hkB0, keyAB, keyBA, hkAB, hkBA, hsockA, hsockB, henvA, henvB, hnA,
    fun st hst => ⟨_, hoA st hst, rfl, rfl⟩, hnB, fun st hst => ⟨_, hoB st hst, rfl, rfl⟩⟩

/-- Over a connected pair of in-memory transports, with primitives whose
`init_pull` returns zero on every input and hashes that do not fail, both
constructions produce an Endpoint, whatever the two passwords. -/
theorem Loopback.pair_completes_when_init_pull_never_rejects (na : Sodium ρ St)
    (p q : CppString) (envA envB : ρ) (inA inB : List Byte)
    (hpull : ∀ hd k, (na.crypto_secretstream_xchacha20poly1305_init_pull hd k).isSome = true)
    (hcA : inA = (Endpoint.Endpoint Loopback.socket.recorded na.recorded q
        (Loopback.mk inB [], []) (envB, [])).socket.1.outbound)
    (hcB : inB = (Endpoint.Endpoint Loopback.socket.recorded na.recorded p
        (Loopback.mk inA [], []) (envA, [])).socket.1.outbound)
    (hKA : ∀ c ∈ (Endpoint.Endpoint Loopback.socket.recorded na.recorded p
        (Loopback.mk inA [], []) (envA, [])).env.2, c.pwhashFailed = false)
    (hKB : ∀ c ∈ (Endpoint.Endpoint Loopback.socket.recorded na.recorded q
        (Loopback.mk inB [], []) (envB, [])).env.2, c.pwhashFailed = false) :
    (∃ epA, (Endpoint.Endpoint Loopback.socket.recorded na.recorded p
        (Loopback.mk inA [], []) (envA, [])).result = .ok epA) ∧
    (∃ epB, (Endpoint.Endpoint Loopback.socket.recorded na.recorded q
        (Loopback.mk inB [], []) (envB, [])).result = .ok epB) := by
  obtain ⟨kA, kB, -, -, keyAB, keyBA, -, -, -, -, -, -, -, hoA, -, hoB⟩ :=
    Loopback.pair na p q envA envB inA inB hcA hcB hKA hKB
  obtain ⟨stA, hstA⟩ := Option.isSome_iff_exists.mp (hpull _ keyAB)
  obtain ⟨stB, hstB⟩ := Option.isSome_iff_exists.mp (hpull _ keyBA)
  obtain ⟨epA, hA, -⟩ := hoA stA hstA
  obtain ⟨epB, hB, -⟩ := hoB stB hstB
  exact ⟨⟨epA, hA⟩, ⟨epB, hB⟩⟩

end loopback

/-- C1. Key agreement on matching passwords. Two constructions with the same
password over a connected pair of in-memory transports (what each side has
to read is what the other side really wrote), with a hash that keeps its
determinism contract and does not fail, and an `init_pull` that accepts the
header `init_push` made under the same key. Each side wrote its salt and its
header, read the salt and header the other wrote, and nothing else crossed
the transport. On libsodium's record of each side, the receive-direction
hash call has the password, the peer's salt, the key length and the limits
of the peer's send-direction call, and returned the same key. Each receive
state is what `init_pull` returns for the peer's header under that key, and
both constructions produce an Endpoint. -/
theorem matching_passwords_agree {ρ St : Type} (na : Sodium ρ St) (p : CppString)
    (envA envB : ρ) (inA inB : List Byte)
    (hdet : na.PwhashDeterministic) (hacc : na.AcceptsMatching)
    (hcA : inA = (Endpoint.Endpoint Loopback.socket.recorded na.recorded p
        (Loopback.mk inB [], []) (envB, [])).socket.1.outbound)
    (hcB : inB = (Endpoint.Endpoint Loopback.socket.recorded na.recorded p
        (Loopback.mk inA [], []) (envA, [])).socket.1.outbound)
    (hKA : ∀ c ∈ (Endpoint.Endpoint Loopback.socket.recorded na.recorded p
        (Loopback.mk inA [], []) (envA, [])).env.2, c.pwhashFailed = false)
    (hKB : ∀ c ∈ (Endpoint.Endpoint Loopback.socket.recorded na.recorded p
        (Loopback.mk inB [], []) (envB, [])).env.2, c.pwhashFailed = false) :
    let rA := na.randombytes_buf envA crypto_pwhash_SALTBYTES
    let dA := na.crypto_pwhash rA.2 crypto_secretstream_xchacha20poly1305_KEYBYTES
      p (List.length p) rA.1 crypto_pwhash_OPSLIMIT_INTERACTIVE
      crypto_pwhash_MEMLIMIT_INTERACTIVE crypto_pwhash_ALG_DEFAULT
    let rB := na.randombytes_buf envB crypto_pwhash_SALTBYTES
    let dB := na.crypto_pwhash rB.2 crypto_secretstream_xchacha20poly1305_KEYBYTES
      p (List.length p) rB.1 crypto_pwhash_OPSLIMIT_INTERACTIVE
      crypto_pwhash_MEMLIMIT_INTERACTIVE crypto_pwhash_ALG_DEFAULT
    ∃ keyA keyB, dA.1 = some keyA ∧ dB.1 = some keyB ∧
      let pA := na.crypto_secretstream_xchacha20poly1305_init_push dA.2 keyA
      let pB := na.crypto_secretstream_xchacha20poly1305_init_push dB.2 keyB
      (Endpoint.Endpoint Loopback.socket.recorded na.recorded p
        (Loopback.mk inA [], []) (envA, [])).socket =
        (Loopback.mk [] (rA.1.val ++ pA.1.2.val),
          handshakeSocketRecord rA.1.val pA.1.2.val rB.1.val pB.1.2.val) ∧
      (Endpoint.Endpoint Loopback.socket.recorded na.recorded p
        (Loopback.mk inB [], []) (envB, [])).socket =
        (Loopback.mk [] (rB.1.val ++ pB.1.2.val),
          handshakeSocketRecord rB.1.val pB.1.2.val rA.1.val pA.1.2.val) ∧
      (Endpoint.Endpoint Loopback.socket.recorded na.recorded p
        (Loopback.mk inA [], []) (envA, [])).env.2 =
        handshakeSodiumRecord p rA.1.val keyA.val pA.1.2.val rB.1.val keyB.val ∧
      (Endpoint.Endpoint Loopback.socket.recorded na.recorded p
        (Loopback.mk inB [], []) (envB, [])).env.2 =
        handshakeSodiumRecord p rB.1.val keyB.val pB.1.2.val rA.1.val keyA.val ∧
      (∃ epA, (Endpoint.Endpoint Loopback.socket.recorded na.recorded p
        (Loopback.mk inA [], []) (envA, [])).result = .ok epA ∧
        na.crypto_secretstream_xchacha20poly1305_init_pull pB.1.2 keyB
          = some epA.recvState ∧
        epA.sendState = pA.1.1) ∧
      (∃ epB, (Endpoint.Endpoint Loopback.socket.recorded na.recorded p
        (Loopback.mk inB [], []) (envB, [])).result = .ok epB ∧
        na.crypto_secretstream_xchacha20poly1305_init_pull pA.1.2 keyA
          = some epB.recvState ∧
        epB.sendState = pB.1.1) := by
  obtain ⟨keyA, keyB, hkA, hkB, keyAB, keyBA, hkAB, hkBA, hsockA, hsockB, henvA, henvB,
    -, hoA, -, hoB⟩ := Loopback.pair na p p envA envB inA inB hcA hcB hKA hKB
  have hk1 : keyAB = keyB := hdet _ _ _ _ _ _ _ _ _ _ _ hkAB hkB
  have hk2 : keyBA = keyA := hdet _ _ _ _ _ _ _ _ _ _ _ hkBA hkA
  subst hk1 hk2
  obtain ⟨stB, hstB⟩ := Option.isSome_iff_exists.mp (hacc _ keyAB)
  obtain ⟨stA, hstA⟩ := Option.isSome_iff_exists.mp (hacc _ keyBA)
  obtain ⟨epA, hrA, hsA, hssA⟩ := hoA stB hstB
  obtain ⟨epB, hrB, hsB, hssB⟩ := hoB stA hstA
  exact ⟨keyBA, keyAB, hkA, hkB, hsockA, hsockB, (by rw [henvA]), (by rw [henvB]),
    ⟨epA, hrA, (by rw [hsA]; exact hstB), hssA⟩, ⟨epB, hrB, (by rw [hsB]; exact hstA), hssB⟩⟩

/-- Witness for C1: two peers with password "p" and the toy primitives, one
from seed 1 and one from seed 7, each reading what the other wrote. -/
theorem matching_passwords_agree_witness :
    (toySodium true).PwhashDeterministic ∧ (toySodium true).AcceptsMatching ∧
    (wireFromSeed7P = (Endpoint.Endpoint Loopback.socket.recorded (toySodium true).recorded passwordP
        (Loopback.mk wireFromSeed1P [], []) ((ToyEnv.mk 7 2), [])).socket.1.outbound) ∧
    (wireFromSeed1P = (Endpoint.Endpoint Loopback.socket.recorded (toySodium true).recorded passwordP
        (Loopback.mk wireFromSeed7P [], []) ((ToyEnv.mk 1 2), [])).socket.1.outbound) ∧
    (∀ c ∈ (Endpoint.Endpoint Loopback.socket.recorded (toySodium true).recorded passwordP
        (Loopback.mk wireFromSeed7P [], []) ((ToyEnv.mk 1 2), [])).env.2, c.pwhashFailed = false) ∧
    (∀ c ∈ (Endpoint.Endpoint Loopback.socket.recorded (toySodium true).recorded passwordP
        (Loopback.mk wireFromSeed1P [], []) ((ToyEnv.mk 7 2), [])).env.2, c.pwhashFailed = false) ∧
    (
    let rA := (toySodium true).randombytes_buf (ToyEnv.mk 1 2) crypto_pwhash_SALTBYTES
    let dA := (toySodium true).crypto_pwhash rA.2 crypto_secretstream_xchacha20poly1305_KEYBYTES
      passwordP (List.length passwordP) rA.1 crypto_pwhash_OPSLIMIT_INTERACTIVE
      crypto_pwhash_MEMLIMIT_INTERACTIVE crypto_pwhash_ALG_DEFAULT
    let rB := (toySodium true).randombytes_buf (ToyEnv.mk 7 2) crypto_pwhash_SALTBYTES
    let dB := (toySodium true).crypto_pwhash rB.2 crypto_secretstream_xchacha20poly1305_KEYBYTES
      passwordP (List.length passwordP) rB.1 crypto_pwhash_OPSLIMIT_INTERACTIVE
      crypto_pwhash_MEMLIMIT_INTERACTIVE crypto_pwhash_ALG_DEFAULT
    ∃ keyA keyB, dA.1 = some keyA ∧ dB.1 = some keyB ∧
      let pA := (toySodium true).crypto_secretstream_xchacha20poly1305_init_push dA.2 keyA
      let pB := (toySodium true).crypto_secretstream_xchacha20poly1305_init_push dB.2 keyB
      (Endpoint.Endpoint Loopback.socket.recorded (toySodium true).recorded passwordP
        (Loopback.mk wireFromSeed7P [], []) ((ToyEnv.mk 1 2), [])).socket =
        (Loopback.mk [] (rA.1.val ++ pA.1.2.val),
          handshakeSocketRecord rA.1.val pA.1.2.val rB.1.val pB.1.2.val) ∧
      (Endpoint.Endpoint Loopback.socket.recorded (toySodium true).recorded passwordP
        (Loopback.mk wireFromSeed1P [], []) ((ToyEnv.mk 7 2), [])).socket =
        (Loopback.mk [] (rB.1.val ++ pB.1.2.val),
          handshakeSocketRecord rB.1.val pB.1.2.val rA.1.val pA.1.2.val) ∧
      (Endpoint.Endpoint Loopback.socket.recorded (toySodium true).recorded passwordP
        (Loopback.mk wireFromSeed7P [], []) ((ToyEnv.mk 1 2), [])).env.2 =
        handshakeSodiumRecord passwordP rA.1.val keyA.val pA.1.2.val rB.1.val keyB.val ∧
      (Endpoint.Endpoint Loopback.socket.recorded (toySodium true).recorded passwordP
        (Loopback.mk wireFromSeed1P [], []) ((ToyEnv.mk 7 2), [])).env.2 =
        handshakeSodiumRecord passwordP rB.1.val keyB.val pB.1.2.val rA.1.val keyA.val ∧
      (∃ epA, (Endpoint.Endpoint Loopback.socket.recorded (toySodium true).recorded passwordP
        (Loopback.mk wireFromSeed7P [], []) ((ToyEnv.mk 1 2), [])).result = .ok epA ∧
        (toySodium true).crypto_secretstream_xchacha20poly1305_init_pull pB.1.2 keyB
          = some epA.recvState ∧
        epA.sendState = pA.1.1) ∧
      (∃ epB, (Endpoint.Endpoint Loopback.socket.recorded (toySodium true).recorded passwordP
        (Loopback.mk wireFromSeed1P [], []) ((ToyEnv.mk 7 2), [])).result = .ok epB ∧
        (toySodium true).crypto_secretstream_xchacha20poly1305_init_pull pA.1.2 keyA
          = some epB.recvState ∧
        epB.sendState = pB.1.1)) :=
  ⟨toySodium_deterministic true, toySodium_acceptsMatching true, by decide, by decide,
   by decide, by decide,
   matching_passwords_agree (toySodium true) passwordP (ToyEnv.mk 1 2) (ToyEnv.mk 7 2)
     wireFromSeed7P wireFromSeed1P (toySodium_deterministic true)
     (toySodium_acceptsMatching true) (by decide) (by decide) (by decide) (by decide)⟩

/-- C3 (the code does not reject a wrong password at construction).
Passwords "p" and "q" over a connected pair of in-memory transports, with
primitives whose `init_pull` returns zero on every input, as libsodium's
does: each side wrote its salt and header and read the other's, the two
sides hashed different keys for the same direction, and both constructions
produce an Endpoint; the `CryptoException("invalid password")` of zem.cc
line 74 is not thrown on either side. -/
theorem differing_passwords_both_complete :
    passwordP ≠ passwordQ ∧
    wireFromSeed7Q = (toyRun false passwordQ wireFromSeed1P 7 2).socket.1.outbound ∧
    wireFromSeed1P = (toyRun false passwordP wireFromSeed7Q 1 2).socket.1.outbound ∧
    recvBytes (toyRun false passwordP wireFromSeed7Q 1 2).socket.2 = wireFromSeed7Q ∧
    recvBytes (toyRun false passwordQ wireFromSeed1P 7 2).socket.2 = wireFromSeed1P ∧
    hashCall passwordP (List.replicate 16 7) (some (List.replicate 32 224)) ∈
      (toyRun false passwordP wireFromSeed7Q 1 2).env.2 ∧
    hashCall passwordQ (List.replicate 16 7) (some (List.replicate 32 225)) ∈
      (toyRun false passwordQ wireFromSeed1P 7 2).env.2 ∧
    (toyRun false passwordP wireFromSeed7Q 1 2).result.isOk = true ∧
    (toyRun false passwordQ wireFromSeed1P 7 2).result.isOk = true := by
  refine ⟨by decide, by decide, by decide, by decide, by decide, by decide, by decide,
    by decide, by decide⟩

/-- What `Server::accept()` does, for every Server, memory and listener: when
the listener throws, that exception and nothing else; otherwise the
construction of an Endpoint on the accepted transport with the string the
reference points to, as it is in memory at the time of the call. The
reference and the listener object stay the ones the Server holds. -/
theorem Server.accept_reads_through_reference {L σ ρ St : Type}
    (lis : ServerSocket L σ) (sock : Socket σ) (na : Sodium ρ St) (mem : Strings)
    (password_ : Nat) (socket_ : L) (env : ρ) :
    (∀ t, (lis.accept socket_).1 = .ok t →
      (Server.accept lis sock na mem (Server.Server password_ socket_) env).1
        = ⟨(Endpoint.Endpoint sock na (mem password_) t env).result,
            some (Endpoint.Endpoint sock na (mem password_) t env).socket,
            (Endpoint.Endpoint sock na (mem password_) t env).env⟩) ∧
    (∀ e, (lis.accept socket_).1 = .error e →
      (Server.accept lis sock na mem (Server.Server password_ socket_) env).1
        = ⟨.error (.socketException e), none, env⟩) ∧
    (Server.accept lis sock na mem (Server.Server password_ socket_) env).2
      = { password := password_, socket := (lis.accept socket_).2 } := by
  refine ⟨?_, ?_, ?_⟩
  · intro t ht
    simp [Server.accept, Server.Server, ht]
  · intro e he
    simp [Server.accept, Server.Server, he]
  · simp only [Server.accept, Server.Server]
    split <;> rfl

/-- C4 (the code stores a reference, not the password). A Server is built
from the caller's string at address 0, which holds "p", and a listener with
one waiting connection whose peer used "p". Direct construction with "p" on
that connection produces an Endpoint, and so does `accept()` while the
caller's string is untouched. After the caller assigns "q" to its string,
`accept()` on the same Server runs the handshake with "q": its result, the
transport it leaves and what the transport and libsodium recorded are those
of construction with "q", libsodium was asked to hash "q", not "p", and it
throws `CryptoException("invalid password")`. -/
theorem server_accept_uses_current_string :
    memoryP 0 = passwordP ∧
    (toyRun true passwordP wireFromSeed7P 1 2).result.isOk = true ∧
    (Server.accept queueListener Loopback.socket.recorded (toySodium true).recorded
      memoryP
      (Server.Server 0 [(Loopback.mk wireFromSeed7P [], [])]) (ToyEnv.mk 1 2, [])).1.result.isOk = true ∧
    (Server.accept queueListener Loopback.socket.recorded (toySodium true).recorded
      (memoryP.assign 0 passwordQ)
      (Server.Server 0 [(Loopback.mk wireFromSeed7P [], [])]) (ToyEnv.mk 1 2, [])).1.result
      = .error (.cryptoException ⟨"invalid password"⟩) ∧
    (Server.accept queueListener Loopback.socket.recorded (toySodium true).recorded
      (memoryP.assign 0 passwordQ)
      (Server.Server 0 [(Loopback.mk wireFromSeed7P [], [])]) (ToyEnv.mk 1 2, [])).1.socket
      = some (toyRun true passwordQ wireFromSeed7P 1 2).socket ∧
    (Server.accept queueListener Loopback.socket.recorded (toySodium true).recorded
      (memoryP.assign 0 passwordQ)
      (Server.Server 0 [(Loopback.mk wireFromSeed7P [], [])]) (ToyEnv.mk 1 2, [])).1.env
      = (toyRun true passwordQ wireFromSeed7P 1 2).env ∧
    (Server.accept queueListener Loopback.socket.recorded (toySodium true).recorded
      (memoryP.assign 0 passwordQ)
      (Server.Server 0 [(Loopback.mk wireFromSeed7P [], [])]) (ToyEnv.mk 1 2, [])).1.env.2
      ≠ (toyRun true passwordP wireFromSeed7P 1 2).env.2 ∧
    (Server.accept queueListener Loopback.socket.recorded (toySodium true).recorded
      (memoryP.assign 0 passwordQ)
      (Server.Server 0 [(Loopback.mk wireFromSeed7P [], [])]) (ToyEnv.mk 1 2, [])).1.env.2.filter SodiumCall.isPwhash =
      [ hashCall passwordQ (List.replicate 16 1) (some (List.replicate 32 129)),
        hashCall passwordQ (List.replicate 16 7) (some (List.replicate 32 225)) ] := by
  refine ⟨rfl, by decide, by decide, rfl, by decide, by decide, by decide, by decide⟩

end zem
